import Mathlib

/-!
# IP Association handlers of the Infoblox Terraform provider

A shallow embedding of `infoblox/resource_infoblox_ip_association_legacy.go`
(the handlers `resourceIpAssocCreate`, `resourceIpAssocUpdate`,
`resourceIpAssocRead`, `resourceIpAssocDelete`, `resourceIpAssocCreateUpdate`)
and of the test comparator `validateRecordPTR`
(`infoblox/resource_infoblox_ptr_record_test.go`).

The remote object manager is an external collaborator: it is a parameter of the
handlers, and every call issued to it is recorded in a trace.  The Go standard
library function `json.Unmarshal` is modelled by `jsonUnmarshal` below.
-/

namespace Infoblox

/-! ## JSON values and the decoding of `ext_attrs` -/

/-- What `encoding/json` stores in an `interface{}`: nil, bool, float64 (kept as
the number literal), string, `[]interface{}`, `map[string]interface{}`. -/
inductive JValue where
  | null
  | bool (b : Bool)
  | number (lit : String)
  | str (s : String)
  | array (items : List JValue)
  | object (fields : List (String × JValue))

/-- The entries of a Go `map[string]interface{}` (keys pairwise distinct). -/
abbrev JFields := List (String × JValue)

/-- A Go map value: `none` is the nil map, `some fields` an allocated map. -/
abbrev GoMap := Option JFields

/-- Map assignment `m[k] = v`: a later assignment to the same key wins. -/
def setField (fields : JFields) (k : String) (v : JValue) : JFields :=
  match fields with
  | [] => [(k, v)]
  | (k0, v0) :: rest =>
    if k0 = k then (k, v) :: rest else (k0, v0) :: setField rest k v

/-- Map lookup `v, ok := m[k]`. -/
def getField (fields : JFields) (k : String) : Option JValue :=
  match fields with
  | [] => none
  | (k0, v0) :: rest => if k0 = k then some v0 else getField rest k

/-- Lookup in a possibly nil map: a nil map has no entries. -/
def GoMap.lookup (m : GoMap) (k : String) : Option JValue :=
  match m with
  | none => none
  | some fields => getField fields k

/-- A number literal being scanned: its text (reversed) and the parts needed to
decide whether it fits a float64. -/
structure NumAcc where
  lit : List Char
  mant : Nat
  fracLen : Nat
  expNeg : Bool
  exp : Nat

/-- The number `2^1024 - 2^970`, halfway between the largest float64 and
`2^1024`: the least magnitude that rounds to infinity. -/
def float64Bound : Nat :=
  179769313486231580793728971405303415079934132710037826936173778980444968292764750946649017977587207096330286416692887910946555547851940402630657488671505820681908902000708383676273854845817711531764475730270069855571366959622842914819860834936475292719074168444365510704342711559699508093042880177904174497792

/-- The range check of `strconv.ParseFloat(s, 64)`: the literal denotes
`mant * 10 ^ (±exp - fracLen)`, which rounds to infinity exactly when its
magnitude is at least `2^1024 - 2^970`. -/
def NumAcc.overflows (n : NumAcc) : Bool :=
  let bound : Nat := float64Bound
  if n.mant = 0 then false
  else if n.expNeg then decide (n.mant ≥ bound * 10 ^ (n.exp + n.fracLen))
  else if n.exp ≥ n.fracLen then decide (n.mant * 10 ^ (n.exp - n.fracLen) ≥ bound)
  else decide (n.mant ≥ bound * 10 ^ (n.fracLen - n.exp))

/-- The parse stack of the scanner, carrying the partially built value. -/
inductive Frame where
  | objKey (fields : JFields)
  | objColon (fields : JFields) (key : String)
  | objVal (fields : JFields) (key : String)
  | objNext (fields : JFields)
  | arrVal (items : List JValue)
  | arrNext (items : List JValue)

/-- The states of the scanner of `encoding/json` (`scanner.go`). -/
inductive Phase where
  | beginValue
  | beginValueOrEmpty
  | beginStringOrEmpty
  | beginString
  | endValue
  | endTop
  | inString (acc : List Char) (hi : Option Nat)
  | inStringEsc (acc : List Char) (hi : Option Nat)
  | inStringEscU (acc : List Char) (hi : Option Nat) (n : Nat) (v : Nat)
  | neg (a : NumAcc)
  | zero (a : NumAcc)
  | int (a : NumAcc)
  | dot (a : NumAcc)
  | dot0 (a : NumAcc)
  | exp (a : NumAcc)
  | expSign (a : NumAcc)
  | exp0 (a : NumAcc)
  | lit (rest : List Char) (v : JValue)
  | error (msg : String)

/-- Scanner and decoder state: current phase, parse stack, the finished
top-level value, and whether a number failed the float64 range check. -/
structure Scan where
  phase : Phase
  stack : List Frame
  top : Option JValue
  rangeErr : Bool

def maxNestingDepth : Nat := 10000

def isSpace (c : Char) : Bool :=
  c = ' ' || c = '\t' || c = '\r' || c = '\n'

def isDigit (c : Char) : Bool := 48 ≤ c.toNat && c.toNat ≤ 57

def digitVal (c : Char) : Nat := c.toNat - 48

def hexVal (c : Char) : Option Nat :=
  let n := c.toNat
  if 48 ≤ n && n ≤ 57 then some (n - 48)
  else if 97 ≤ n && n ≤ 102 then some (n - 87)
  else if 65 ≤ n && n ≤ 70 then some (n - 55)
  else none

def quoteChar : Char := Char.ofNat 34

def backslashChar : Char := Char.ofNat 92

def replacementChar : Char := Char.ofNat 65533

def Scan.fail (st : Scan) (msg : String) : Scan :=
  { st with phase := Phase.error msg }

/-- A value is finished: store it in the enclosing frame, or as the top-level
value when the parse stack is empty. -/
def Scan.complete (st : Scan) (v : JValue) : Scan :=
  match st.stack with
  | [] => { st with phase := Phase.endTop, top := some v }
  | Frame.objVal fields k :: rest =>
    { st with phase := Phase.endValue, stack := Frame.objNext (setField fields k v) :: rest }
  | Frame.arrVal items :: rest =>
    { st with phase := Phase.endValue, stack := Frame.arrNext (v :: items) :: rest }
  | _ => st.fail "unexpected value"

/-- A string literal is finished: it is an object key or a value. -/
def Scan.completeString (st : Scan) (s : String) : Scan :=
  match st.stack with
  | Frame.objKey fields :: rest =>
    { st with phase := Phase.endValue, stack := Frame.objColon fields s :: rest }
  | _ => st.complete (JValue.str s)

/-- A number literal is finished (`convertNumber`). -/
def Scan.completeNumber (st : Scan) (a : NumAcc) : Scan :=
  let st1 : Scan := { st with rangeErr := st.rangeErr || a.overflows }
  st1.complete (JValue.number (String.mk a.lit.reverse))

/-- Push a frame (`pushParseState`), bounded by the maximal nesting depth. -/
def Scan.push (st : Scan) (f : Frame) (next : Phase) : Scan :=
  if st.stack.length + 1 ≤ maxNestingDepth then
    { st with phase := next, stack := f :: st.stack }
  else st.fail "exceeded max depth"

/-- Scanner function `stateEndValue` (and `stateEndTop` on an empty stack). -/
def Scan.endValueStep (st : Scan) (c : Char) : Scan :=
  if isSpace c then st
  else
    match st.stack with
    | [] => st.fail "invalid character after top-level value"
    | Frame.objColon fields k :: rest =>
      if c = ':' then { st with phase := Phase.beginValue, stack := Frame.objVal fields k :: rest }
      else st.fail "invalid character after object key"
    | Frame.objNext fields :: rest =>
      if c = ',' then { st with phase := Phase.beginString, stack := Frame.objKey fields :: rest }
      else if c = Char.ofNat 125 then
        Scan.complete { st with stack := rest } (JValue.object fields)
      else st.fail "invalid character after object key:value pair"
    | Frame.arrNext items :: rest =>
      if c = ',' then { st with phase := Phase.beginValue, stack := Frame.arrVal items :: rest }
      else if c = ']' then
        Scan.complete { st with stack := rest } (JValue.array items.reverse)
      else st.fail "invalid character after array element"
    | _ => st.fail "invalid character"

/-- Scanner function `stateBeginValue`. -/
def Scan.beginValueStep (st : Scan) (c : Char) : Scan :=
  if isSpace c then st
  else if c = Char.ofNat 123 then st.push (Frame.objKey []) Phase.beginStringOrEmpty
  else if c = '[' then st.push (Frame.arrVal []) Phase.beginValueOrEmpty
  else if c = quoteChar then { st with phase := Phase.inString [] none }
  else if c = '-' then { st with phase := Phase.neg ⟨[c], 0, 0, false, 0⟩ }
  else if c = '0' then { st with phase := Phase.zero ⟨[c], 0, 0, false, 0⟩ }
  else if isDigit c then { st with phase := Phase.int ⟨[c], digitVal c, 0, false, 0⟩ }
  else if c = 't' then { st with phase := Phase.lit ['r', 'u', 'e'] (JValue.bool true) }
  else if c = 'f' then { st with phase := Phase.lit ['a', 'l', 's', 'e'] (JValue.bool false) }
  else if c = 'n' then { st with phase := Phase.lit ['u', 'l', 'l'] JValue.null }
  else st.fail "invalid character looking for beginning of value"

/-- Scanner function `stateBeginString`. -/
def Scan.beginStringStep (st : Scan) (c : Char) : Scan :=
  if isSpace c then st
  else if c = quoteChar then { st with phase := Phase.inString [] none }
  else st.fail "invalid character looking for beginning of object key string"

/-- Drop a pending high surrogate that was not followed by a low one: it
decodes to U+FFFD. -/
def flushHi (acc : List Char) (hi : Option Nat) : List Char :=
  match hi with
  | none => acc
  | some _ => replacementChar :: acc

/-- A `\uXXXX` escape with value `v` is finished (`unquote`, UTF-16 surrogate
pairs included). -/
def unicodeEscape (acc : List Char) (hi : Option Nat) (v : Nat) : List Char × Option Nat :=
  let isHigh : Bool := 0xD800 ≤ v && v < 0xDC00
  let isLow : Bool := 0xDC00 ≤ v && v < 0xE000
  match hi with
  | some h =>
    if isLow then (Char.ofNat ((h - 0xD800) * 1024 + (v - 0xDC00) + 0x10000) :: acc, none)
    else if isHigh then (replacementChar :: acc, some v)
    else (Char.ofNat v :: replacementChar :: acc, none)
  | none =>
    if isHigh then (acc, some v)
    else if isLow then (replacementChar :: acc, none)
    else (Char.ofNat v :: acc, none)

/-- The escapes of one character after a backslash. -/
def simpleEscape (c : Char) : Option Char :=
  if c = 'b' then some (Char.ofNat 8)
  else if c = 'f' then some (Char.ofNat 12)
  else if c = 'n' then some '\n'
  else if c = 'r' then some '\r'
  else if c = 't' then some '\t'
  else if c = backslashChar then some backslashChar
  else if c = '/' then some '/'
  else if c = quoteChar then some quoteChar
  else none

/-- One step of the scanner on the next character. -/
def Scan.step (st : Scan) (c : Char) : Scan :=
  match st.phase with
  | Phase.error _ => st
  | Phase.beginValue => st.beginValueStep c
  | Phase.beginValueOrEmpty =>
    if isSpace c then st
    else if c = ']' then
      match st.stack with
      | Frame.arrVal items :: rest =>
        Scan.complete { st with stack := rest } (JValue.array items.reverse)
      | _ => st.fail "invalid character"
    else st.beginValueStep c
  | Phase.beginStringOrEmpty =>
    if isSpace c then st
    else if c = Char.ofNat 125 then
      match st.stack with
      | Frame.objKey fields :: rest =>
        Scan.complete { st with stack := rest } (JValue.object fields)
      | _ => st.fail "invalid character"
    else st.beginStringStep c
  | Phase.beginString => st.beginStringStep c
  | Phase.endValue => st.endValueStep c
  | Phase.endTop => st.endValueStep c
  | Phase.inString acc hi =>
    if c = quoteChar then st.completeString (String.mk (flushHi acc hi).reverse)
    else if c = backslashChar then { st with phase := Phase.inStringEsc acc hi }
    else if c.toNat < 32 then st.fail "invalid character in string literal"
    else { st with phase := Phase.inString (c :: flushHi acc hi) none }
  | Phase.inStringEsc acc hi =>
    if c = 'u' then { st with phase := Phase.inStringEscU acc hi 0 0 }
    else
      match simpleEscape c with
      | some e => { st with phase := Phase.inString (e :: flushHi acc hi) none }
      | none => st.fail "invalid character in string escape code"
  | Phase.inStringEscU acc hi n v =>
    match hexVal c with
    | none => st.fail "invalid character in \\u hexadecimal character escape"
    | some h =>
      if n < 3 then { st with phase := Phase.inStringEscU acc hi (n + 1) (v * 16 + h) }
      else
        let r := unicodeEscape acc hi (v * 16 + h)
        { st with phase := Phase.inString r.1 r.2 }
  | Phase.neg a =>
    if c = '0' then { st with phase := Phase.zero { a with lit := c :: a.lit } }
    else if isDigit c then
      { st with phase := Phase.int { a with lit := c :: a.lit, mant := digitVal c } }
    else st.fail "invalid character in numeric literal"
  | Phase.int a =>
    if isDigit c then
      { st with phase := Phase.int { a with lit := c :: a.lit, mant := a.mant * 10 + digitVal c } }
    else if c = '.' then { st with phase := Phase.dot { a with lit := c :: a.lit } }
    else if c = 'e' || c = 'E' then { st with phase := Phase.exp { a with lit := c :: a.lit } }
    else (st.completeNumber a).endValueStep c
  | Phase.zero a =>
    if c = '.' then { st with phase := Phase.dot { a with lit := c :: a.lit } }
    else if c = 'e' || c = 'E' then { st with phase := Phase.exp { a with lit := c :: a.lit } }
    else (st.completeNumber a).endValueStep c
  | Phase.dot a =>
    if isDigit c then
      let a1 : NumAcc :=
        { a with lit := c :: a.lit, mant := a.mant * 10 + digitVal c, fracLen := a.fracLen + 1 }
      { st with phase := Phase.dot0 a1 }
    else st.fail "invalid character after decimal point in numeric literal"
  | Phase.dot0 a =>
    if isDigit c then
      let a1 : NumAcc :=
        { a with lit := c :: a.lit, mant := a.mant * 10 + digitVal c, fracLen := a.fracLen + 1 }
      { st with phase := Phase.dot0 a1 }
    else if c = 'e' || c = 'E' then { st with phase := Phase.exp { a with lit := c :: a.lit } }
    else (st.completeNumber a).endValueStep c
  | Phase.exp a =>
    if c = '+' then { st with phase := Phase.expSign { a with lit := c :: a.lit } }
    else if c = '-' then
      { st with phase := Phase.expSign { a with lit := c :: a.lit, expNeg := true } }
    else if isDigit c then
      { st with phase := Phase.exp0 { a with lit := c :: a.lit, exp := digitVal c } }
    else st.fail "invalid character in exponent of numeric literal"
  | Phase.expSign a =>
    if isDigit c then
      { st with phase := Phase.exp0 { a with lit := c :: a.lit, exp := digitVal c } }
    else st.fail "invalid character in exponent of numeric literal"
  | Phase.exp0 a =>
    if isDigit c then
      { st with phase := Phase.exp0 { a with lit := c :: a.lit, exp := a.exp * 10 + digitVal c } }
    else (st.completeNumber a).endValueStep c
  | Phase.lit rest v =>
    match rest with
    | [] => st.fail "invalid character in literal"
    | [x] => if c = x then st.complete v else st.fail "invalid character in literal"
    | x :: more =>
      if c = x then { st with phase := Phase.lit more v }
      else st.fail "invalid character in literal"

/-- The scanner started on an input (`scanner.reset`). -/
def Scan.init : Scan := ⟨Phase.beginValue, [], none, false⟩

/-- Scan and decode a whole document: every character, then the end of input
(`scanner.eof` feeds one space).  The result is the top-level value and whether
some number failed the float64 range check, or a syntax error. -/
def jsonDecode (data : String) : Except String (JValue × Bool) :=
  let st := (data.data.foldl Scan.step Scan.init).step ' '
  match st.phase, st.stack, st.top with
  | Phase.error msg, _, _ => Except.error msg
  | Phase.endTop, [], some v => Except.ok (v, st.rangeErr)
  | _, _, _ => Except.error "unexpected end of JSON input"

/-- The call `json.Unmarshal([]byte(data), &m)` for `m` of type
`map[string]interface{}`: the map after the call and the returned error.
A syntax error leaves the map untouched; `null` sets it to nil; an object
assigns its members to the map (allocated if nil); any other top-level value,
and any number outside float64, is an error. -/
def jsonUnmarshal (data : String) (m : GoMap) : GoMap × Option String :=
  match jsonDecode data with
  | Except.error msg => (m, some msg)
  | Except.ok (JValue.null, _) => (none, none)
  | Except.ok (JValue.object fields, rangeErr) =>
    let m1 : JFields := fields.foldl (fun acc kv => setField acc kv.1 kv.2) (m.getD [])
    (some m1, if rangeErr then some "json: cannot unmarshal number into Go value of type float64"
              else none)
  | Except.ok (JValue.array _, _) =>
    (m, some "json: cannot unmarshal array into Go value of type map[string]interface \x7b\x7d")
  | Except.ok (JValue.str _, _) =>
    (m, some "json: cannot unmarshal string into Go value of type map[string]interface \x7b\x7d")
  | Except.ok (JValue.number _, _) =>
    (m, some "json: cannot unmarshal number into Go value of type map[string]interface \x7b\x7d")
  | Except.ok (JValue.bool _, _) =>
    (m, some "json: cannot unmarshal bool into Go value of type map[string]interface \x7b\x7d")

/-! ## Resource data, the remote object manager, handler results -/

/-- Constants of the package that are declared outside the embedded files. -/
structure Consts where
  ttlUndef : Int
  eaNameForTenantId : String

/-- The fields of `schema.ResourceData` for the IP Association resource: the
identifier, the configured values returned by `d.Get`, and for the two view
fields the value in the prior state, against which `d.HasChange` compares. -/
structure ResourceData where
  id : String
  network_view : String
  dns_view : String
  state_network_view : String
  state_dns_view : String
  enable_dns : Bool
  enable_dhcp : Bool
  cidr : String
  ip_addr : String
  mac_addr : String
  duid : String
  fqdn : String
  ttl : Int
  comment : String
  ext_attrs : String

/-- `d.HasChange(key)`: the prior and the new value of the field differ. -/
def ResourceData.HasChange (d : ResourceData) (key : String) : Bool :=
  if key = "network_view" then decide (d.state_network_view ≠ d.network_view)
  else if key = "dns_view" then decide (d.state_dns_view ≠ d.dns_view)
  else false

/-- `d.SetId(ref)`. -/
def ResourceData.SetId (d : ResourceData) (ref : String) : ResourceData :=
  { d with id := ref }

/-- The part of `ibclient.HostRecord` the handlers read. -/
structure HostRecord where
  Ref : String

/-- An error returned by the client library: its message, and whether it is
the library's not-found error. -/
structure IBError where
  notFound : Bool
  msg : String

/-- The arguments of `objMgr.UpdateHostRecord`, in the order of the call. -/
structure UpdateArgs where
  hostRref : String
  enabledns : Bool
  enabledhcp : Bool
  name : String
  netView : String
  dnsView : String
  ipv4cidr : String
  ipv6cidr : String
  ipv4Addr : String
  ipv6Addr : String
  macAddr : String
  duid : String
  useTtl : Bool
  ttl : Nat
  comment : String
  eas : GoMap
  aliases : List String

/-- A call on the object manager built by
`ibclient.NewObjectManager(connector, "Terraform", tenantID)`: the three
methods the handlers use, and the library's `DeleteHostRecord`. -/
inductive Call where
  | GetHostRecord (tenantID netview dnsview recordName ipv4addr ipv6addr : String)
  | UpdateHostRecord (tenantID : String) (args : UpdateArgs)
  | GetHostRecordByRef (tenantID ref : String)
  | DeleteHostRecord (tenantID ref : String)

/-- The tenant of the object manager a call was issued on. -/
def Call.tenant : Call → String
  | Call.GetHostRecord t _ _ _ _ _ => t
  | Call.UpdateHostRecord t _ => t
  | Call.GetHostRecordByRef t _ => t
  | Call.DeleteHostRecord t _ => t

/-- What a call returns: the Go pair `(*HostRecord, error)`. -/
structure Reply where
  obj : Option HostRecord
  err : Option IBError

/-- The connector `m`: the reply to a call may depend on the calls issued
before it during the same handler invocation. -/
structure Connector where
  respond : List Call → Call → Reply

/-- How a handler ends: it returns nil, returns an error, or panics. -/
inductive Outcome where
  | ok
  | error (msg : String)
  | panic (msg : String)
deriving DecidableEq

/-- A finished handler invocation: the outcome, the resource data afterwards
and the remote calls issued, in order. -/
structure Run where
  result : Outcome
  d : ResourceData
  calls : List Call

/-- The conversion `uint32(x)` of a Go `int`. -/
def uint32 (x : Int) : Nat := (x % 4294967296).toNat

/-- `strings.Replace(s, old, new, -1)` for one-character `old` and `new`. -/
def replaceChar (s : String) (old new : Char) : String :=
  String.mk (s.data.map fun c => if c = old then new else c)

/-- The TTL block shared verbatim by `resourceIpAssocDelete` (lines 159-168)
and `resourceIpAssocCreateUpdate` (lines 246-255): `(useTtl, ttl)` or the
error message. -/
def readTtl (k : Consts) (tempTTL : Int) : Except String (Bool × Nat) :=
  if tempTTL ≥ 0 then Except.ok (true, uint32 tempTTL)
  else if tempTTL ≠ k.ttlUndef then Except.error "TTL value must be 0 or higher"
  else Except.ok (false, 0)

/-- The `ext_attrs` block shared verbatim by `resourceIpAssocRead` (lines
115-125), `resourceIpAssocDelete` (lines 171-181) and
`resourceIpAssocCreateUpdate` (lines 258-268): the map made by
`make(map[string]interface{})`, filled by `json.Unmarshal` when the field is
non-empty, and the tenant id read from it with the type assertion
`tempVal.(string)`, which panics on a value that is not a string. -/
def readExtAttrs (k : Consts) (extAttrJSON : String) : Except Outcome (GoMap × String) :=
  let made : GoMap := some []
  let decoded : GoMap × Option String :=
    if extAttrJSON ≠ "" then jsonUnmarshal extAttrJSON made else (made, none)
  match decoded.2 with
  | some e => Except.error (Outcome.error ("cannot process 'ext_attrs' field: " ++ e))
  | none =>
    match decoded.1.lookup k.eaNameForTenantId with
    | none => Except.ok (decoded.1, "")
    | some (JValue.str tenantID) => Except.ok (decoded.1, tenantID)
    | some _ =>
      Except.error (Outcome.panic "interface conversion: interface \x7b\x7d is not string")

def nilDereference : String := "invalid memory address or nil pointer dereference"

/-! ## The handlers -/

/-- Handler `resourceIpAssocCreateUpdate` (lines 228-330). -/
def resourceIpAssocCreateUpdate (k : Consts) (d : ResourceData) (m : Connector)
    (isIPv6 : Bool) : Run :=
  let networkView := d.network_view
  let enableDhcp := d.enable_dhcp
  let enableDns := d.enable_dns
  let dnsView := if !enableDns then "" else d.dns_view
  let fqdn := d.fqdn
  let cidr := d.cidr
  let ipAddr := d.ip_addr
  let macAddr := replaceChar d.mac_addr '-' ':'
  let duid := d.duid
  match readTtl k d.ttl with
  | Except.error msg => ⟨Outcome.error msg, d, []⟩
  | Except.ok (useTtl, ttl) =>
  let comment := d.comment
  match readExtAttrs k d.ext_attrs with
  | Except.error o => ⟨o, d, []⟩
  | Except.ok (extAttrs, tenantID) =>
  if isIPv6 then
    let get := Call.GetHostRecord tenantID networkView dnsView fqdn "" ipAddr
    let r := m.respond [] get
    match r.err with
    | some err =>
      ⟨Outcome.error ("Failed to get HostRecord for 'fqdn': " ++ fqdn ++ " and 'IP':" ++ ipAddr
        ++ " in'network view': " ++ networkView ++ " and 'dns view':" ++ dnsView
        ++ ". Error:" ++ err.msg), d, [get]⟩
    | none =>
    match r.obj with
    | none => ⟨Outcome.error ("HostRecord " ++ fqdn ++ " not found."), d, [get]⟩
    | some hostRecordObj =>
    let upd := Call.UpdateHostRecord tenantID
      ⟨hostRecordObj.Ref, enableDns, enableDhcp, fqdn, networkView, dnsView,
        "", cidr, "", ipAddr, "", duid, useTtl, ttl, comment, extAttrs, []⟩
    let r2 := m.respond [get] upd
    match r2.err with
    | some err =>
      ⟨Outcome.error ("UpdateHost Record failed with ID " ++ d.id ++ ": " ++ err.msg), d,
        [get, upd]⟩
    | none =>
    match r2.obj with
    | none => ⟨Outcome.panic nilDereference, d, [get, upd]⟩
    | some hostRec => ⟨Outcome.ok, d.SetId hostRec.Ref, [get, upd]⟩
  else
    let get := Call.GetHostRecord tenantID networkView dnsView fqdn ipAddr ""
    let r := m.respond [] get
    match r.err with
    | some err =>
      ⟨Outcome.error ("failed to get host record for 'fqdn': " ++ fqdn ++ " and 'IP':" ++ ipAddr
        ++ " in'network view': " ++ networkView ++ " and 'dns view':" ++ dnsView
        ++ ". Error:" ++ err.msg), d, [get]⟩
    | none =>
    match r.obj with
    | none => ⟨Outcome.error ("host record '" ++ fqdn ++ "' not found"), d, [get]⟩
    | some hostRecordObj =>
    let upd := Call.UpdateHostRecord tenantID
      ⟨hostRecordObj.Ref, enableDns, enableDhcp, fqdn, networkView, dnsView,
        cidr, "", ipAddr, "", macAddr, "", useTtl, ttl, comment, extAttrs, []⟩
    let r2 := m.respond [get] upd
    match r2.err with
    | some err =>
      ⟨Outcome.error ("UpdateHost Record failed with ID " ++ d.id ++ ": " ++ err.msg), d,
        [get, upd]⟩
    | none =>
    match r2.obj with
    | none => ⟨Outcome.panic nilDereference, d, [get, upd]⟩
    | some hostRec => ⟨Outcome.ok, d.SetId hostRec.Ref, [get, upd]⟩

/-- Handler `resourceIpAssocCreate` (lines 91-97). -/
def resourceIpAssocCreate (k : Consts) (d : ResourceData) (m : Connector)
    (isIPv6 : Bool) : Run :=
  let r := resourceIpAssocCreateUpdate k d m isIPv6
  match r.result with
  | Outcome.ok => ⟨Outcome.ok, r.d, r.calls⟩
  | err => ⟨err, r.d, r.calls⟩

/-- Handler `resourceIpAssocUpdate` (lines 99-112). -/
def resourceIpAssocUpdate (k : Consts) (d : ResourceData) (m : Connector)
    (isIPv6 : Bool) : Run :=
  if d.HasChange "network_view" then
    ⟨Outcome.error "changing the value of 'networkView' field is not allowed", d, []⟩
  else if d.HasChange "dns_view" then
    ⟨Outcome.error "changing the value of 'dns_view' field is not allowed", d, []⟩
  else
    let r := resourceIpAssocCreateUpdate k d m isIPv6
    match r.result with
    | Outcome.ok => ⟨Outcome.ok, r.d, r.calls⟩
    | err => ⟨err, r.d, r.calls⟩

/-- Handler `resourceIpAssocRead` (lines 114-138). -/
def resourceIpAssocRead (k : Consts) (d : ResourceData) (m : Connector) : Run :=
  match readExtAttrs k d.ext_attrs with
  | Except.error o => ⟨o, d, []⟩
  | Except.ok (_, tenantID) =>
  let get := Call.GetHostRecordByRef tenantID d.id
  let r := m.respond [] get
  match r.err with
  | some err =>
    ⟨Outcome.error ("Error getting Allocated HostRecord with ID: " ++ d.id ++ " failed : "
      ++ err.msg), d, [get]⟩
  | none =>
  match r.obj with
  | none => ⟨Outcome.panic nilDereference, d, [get]⟩
  | some hostRec => ⟨Outcome.ok, d.SetId hostRec.Ref, [get]⟩

/-- Handler `resourceIpAssocDelete` (lines 143-226). -/
def resourceIpAssocDelete (k : Consts) (d : ResourceData) (m : Connector)
    (isIPv6 : Bool) : Run :=
  let networkView := d.network_view
  let dnsView := d.dns_view
  if d.HasChange "network_view" then
    ⟨Outcome.error "changing the value of 'networkView' field is not allowed", d, []⟩
  else if d.HasChange "dns_view" then
    ⟨Outcome.error "changing the value of 'dns_view' field is not allowed", d, []⟩
  else
  let enableDns := d.enable_dns
  let enableDhcp := d.enable_dhcp
  let fqdn := d.fqdn
  let cidr := d.cidr
  let ipAddr := d.ip_addr
  let duid := d.duid
  match readTtl k d.ttl with
  | Except.error msg => ⟨Outcome.error msg, d, []⟩
  | Except.ok (useTtl, ttl) =>
  let comment := d.comment
  match readExtAttrs k d.ext_attrs with
  | Except.error o => ⟨o, d, []⟩
  | Except.ok (extAttrs, tenantID) =>
  let ZeroMacAddr := "00:00:00:00:00:00"
  if isIPv6 then
    let upd := Call.UpdateHostRecord tenantID
      ⟨d.id, enableDns, enableDhcp, fqdn, networkView, dnsView,
        "", cidr, "", ipAddr, "", duid, useTtl, ttl, comment, extAttrs, []⟩
    let r := m.respond [] upd
    match r.err with
    | some err =>
      ⟨Outcome.error ("Error updating Host record with ID " ++ d.id ++ ": " ++ err.msg), d, [upd]⟩
    | none =>
    match r.obj with
    | none => ⟨Outcome.panic nilDereference, d, [upd]⟩
    | some hostRec => ⟨Outcome.ok, d.SetId hostRec.Ref, [upd]⟩
  else
    let upd := Call.UpdateHostRecord tenantID
      ⟨d.id, enableDns, enableDhcp, fqdn, networkView, dnsView,
        cidr, "", ipAddr, "", ZeroMacAddr, "", useTtl, ttl, comment, extAttrs, []⟩
    let r := m.respond [] upd
    match r.err with
    | some err =>
      ⟨Outcome.error ("Error updating Host record with ID " ++ d.id ++ ": " ++ err.msg), d, [upd]⟩
    | none =>
    match r.obj with
    | none => ⟨Outcome.panic nilDereference, d, [upd]⟩
    | some hostRec => ⟨Outcome.ok, d.SetId hostRec.Ref, [upd]⟩

/-! ## The test comparator `validateRecordPTR` -/

/-- The fields of `ibclient.RecordPTR` the comparator reads; a pointer field is
an `Option`, `none` being the nil pointer. -/
structure RecordPTR where
  View : String
  PtrdName : Option String
  Name : Option String
  Zone : String
  Ipv4Addr : Option String
  Ipv6Addr : Option String
  Comment : Option String
  UseTtl : Option Bool
  Ttl : Option Nat
  Ea : GoMap

/-- The part of `terraform.State` the comparator reads:
`s.RootModule().Resources[name]`, giving `res.Primary.ID` when it is found. -/
structure TerraformState where
  Resources : String → Option String

/-- What the test environment supplies: the functions `isNotFoundError` and
`validateEAs`, declared outside the embedded files, and the replies of
`objMgr.GetPTRRecordByRef` through the test connector. -/
structure TestEnv where
  isNotFoundError : IBError → Bool
  validateEAs : GoMap → GoMap → Outcome
  GetPTRRecordByRef : String → Option RecordPTR × Option IBError

/-- Function `safePtrValue` (utils.go, lines 37-66) on a `*string`. -/
def safePtrValueString (ptr : Option String) : String :=
  match ptr with
  | none => "nil"
  | some t => t

/-- Function `safePtrValue` on a `*bool`. -/
def safePtrValueBool (ptr : Option Bool) : String :=
  match ptr with
  | none => "nil"
  | some t => if t then "true" else "false"

/-- Function `safePtrValue` on a `*uint32`. -/
def safePtrValueUint32 (ptr : Option Nat) : String :=
  match ptr with
  | none => "nil"
  | some t => toString t

/-- The check function returned by `validateRecordPTR(resourceName,
expectedValue)` (resource_infoblox_ptr_record_test.go, lines 15-123), applied to
a state. -/
def validateRecordPTR (env : TestEnv) (resourceName : String)
    (expectedValue : Option RecordPTR) (s : TerraformState) : Outcome :=
  match s.Resources resourceName with
  | none => Outcome.error ("not found: " ++ resourceName)
  | some id =>
  if id = "" then Outcome.error "ID is not set"
  else
  let reply := env.GetPTRRecordByRef id
  let notFound : Bool :=
    match reply.2 with
    | some err => env.isNotFoundError err
    | none => false
  if notFound then
    match expectedValue with
    | none => Outcome.ok
    | some _ =>
      Outcome.error ("object with ID '" ++ id ++ "' not found, but expected to exist")
  else
  match expectedValue with
  | none => Outcome.panic nilDereference
  | some expected =>
  match reply.1 with
  | none => Outcome.panic nilDereference
  | some recPtr =>
  if recPtr.PtrdName ≠ expected.PtrdName then
    Outcome.error ("the value of 'ptrdname' field is '" ++ safePtrValueString recPtr.PtrdName
      ++ "', but expected '" ++ safePtrValueString expected.PtrdName ++ "'")
  else if recPtr.Comment ≠ expected.Comment then
    Outcome.error ("the value of 'comment' field is '" ++ safePtrValueString recPtr.Comment
      ++ "', but expected '" ++ safePtrValueString expected.Comment ++ "'")
  else if recPtr.Name ≠ expected.Name then
    Outcome.error ("the value of 'name' field is '" ++ safePtrValueString recPtr.Name
      ++ "', but expected '" ++ safePtrValueString expected.Name ++ "'")
  else if recPtr.UseTtl ≠ expected.UseTtl then
    Outcome.error ("the value of 'use_ttl' field is '" ++ safePtrValueBool recPtr.UseTtl
      ++ "', but expected '" ++ safePtrValueBool expected.UseTtl ++ "'")
  else if expected.UseTtl = some true ∧ recPtr.Ttl ≠ expected.Ttl then
    Outcome.error ("the value of 'ttl' field is '" ++ safePtrValueUint32 recPtr.Ttl
      ++ "', but expected '" ++ safePtrValueUint32 expected.Ttl ++ "'")
  else if recPtr.View ≠ expected.View then
    Outcome.error ("the value of 'view' field is '" ++ recPtr.View
      ++ "', but expected '" ++ expected.View ++ "'")
  else if recPtr.Zone ≠ expected.Zone then
    Outcome.error ("the value of 'zone' field is '" ++ recPtr.Zone
      ++ "', but expected '" ++ expected.Zone ++ "'")
  else if recPtr.Ipv4Addr ≠ expected.Ipv4Addr then
    Outcome.error ("the value of 'ipv4addr' field is '" ++ safePtrValueString recPtr.Ipv4Addr
      ++ "', but expected '" ++ safePtrValueString expected.Ipv4Addr ++ "'")
  else if recPtr.Ipv6Addr ≠ expected.Ipv6Addr then
    Outcome.error ("the value of 'ipv6addr' field is '" ++ safePtrValueString recPtr.Ipv6Addr
      ++ "', but expected '" ++ safePtrValueString expected.Ipv6Addr ++ "'")
  else
  let expectedEAs := expected.Ea
  if expectedEAs.isNone ∧ recPtr.Ea.isSome then
    Outcome.error ("the object with ID '" ++ id
      ++ "' has 'ext_attrs' field, but it is not expected to exist")
  else if expectedEAs.isSome ∧ recPtr.Ea.isNone then
    Outcome.error ("the object with ID '" ++ id
      ++ "' has no 'ext_attrs' field, but it is expected to exist")
  else if expectedEAs.isNone then Outcome.ok
  else env.validateEAs recPtr.Ea expectedEAs

/-! ## The error catcher of `utils.go` -/

/-- What a callback does when it is called: it returns, or it panics with a
value.  Panic values are the non-nil values of `Exception`; `panic(nil)` is
not modelled. -/
inductive Behaviour where
  | returns
  | panics (e : String)
deriving DecidableEq

/-- The `Finally` callback: it is run directly by `defer`, so a `recover()` in
its body takes effect; `recovers` says whether it calls it. -/
structure FinallyFn where
  recovers : Bool
  outcome : Behaviour

/-- The type `ErrorCatcher` (utils.go, lines 5-9); `none` is a nil function. -/
structure ErrorCatcher where
  Try : Option Behaviour
  Catch : Option (String → Behaviour)
  Finally : Option FinallyFn

/-- The calls of the callbacks made by `Run`, in order. -/
inductive Event where
  | tryCalled
  | catchCalled (e : String)
  | finallyCalled
deriving DecidableEq

/-- Function `CheckErrorAndReact` (utils.go, lines 13-17); `none` is the nil
`Exception`. -/
def CheckErrorAndReact (e : Option String) : Behaviour :=
  match e with
  | some v => Behaviour.panics v
  | none => Behaviour.returns

/-- Method `ErrorCatcher.Run` (utils.go, lines 19-35): the callbacks it calls,
in order, and how `Run` itself ends.  The body calls `Try`, or panics when it
is nil; the deferred functions then run last registered first: the closure
around `Catch`, which recovers a panic and hands its value to `Catch`, then
`Finally`. -/
def ErrorCatcher.Run (ec : ErrorCatcher) : List Event × Behaviour :=
  let body : List Event × Behaviour :=
    match ec.Try with
    | none => ([], Behaviour.panics "ErrorCatcher's 'Try' function must be defined")
    | some t => ([Event.tryCalled], t)
  let afterCatch : List Event × Behaviour :=
    match ec.Catch with
    | none => body
    | some c =>
      match body.2 with
      | Behaviour.returns => body
      | Behaviour.panics e => (body.1 ++ [Event.catchCalled e], c e)
  match ec.Finally with
  | none => afterCatch
  | some f =>
    match f.outcome with
    | Behaviour.panics e2 => (afterCatch.1 ++ [Event.finallyCalled], Behaviour.panics e2)
    | Behaviour.returns =>
      (afterCatch.1 ++ [Event.finallyCalled],
        if f.recovers then Behaviour.returns else afterCatch.2)

/-! ## Sample inputs -/

def sampleConsts : Consts := ⟨-1, "Tenant ID"⟩

/-- A connector that finds every host record and accepts every update. -/
def okConnector : Connector :=
  ⟨fun _ c =>
    match c with
    | Call.GetHostRecord _ _ _ _ _ _ => ⟨some ⟨"record:host/found"⟩, none⟩
    | Call.UpdateHostRecord _ _ => ⟨some ⟨"record:host/updated"⟩, none⟩
    | Call.GetHostRecordByRef _ ref => ⟨some ⟨ref⟩, none⟩
    | Call.DeleteHostRecord _ _ => ⟨none, none⟩⟩

/-- An IPv4 association in its stored state: nothing changed, no TTL, no
extensible attributes. -/
def sampleData : ResourceData :=
  { id := "record:host/stored"
    network_view := "default"
    dns_view := "default"
    state_network_view := "default"
    state_dns_view := "default"
    enable_dns := false
    enable_dhcp := true
    cidr := "10.0.0.0/24"
    ip_addr := "10.0.0.4"
    mac_addr := "aa-bb-cc-dd-ee-ff"
    duid := "00:03:00:01:aa:bb:cc:dd:ee:ff"
    fqdn := "host.test.com"
    ttl := -1
    comment := ""
    ext_attrs := "" }

/-- The sample association with an `ext_attrs` text that is not JSON. -/
def undecodableData : ResourceData := { sampleData with ext_attrs := "\x7b" }

/-- The sample association with the empty JSON object as `ext_attrs`. -/
def emptyObjectData : ResourceData := { sampleData with ext_attrs := "\x7b\x7d" }

/-- A PTR record as the first acceptance step expects it, without extensible
attributes. -/
def samplePTR : RecordPTR :=
  { View := "default"
    PtrdName := some "testptrdname.test.com"
    Name := some "testname.test.com"
    Zone := "test.com"
    Ipv4Addr := some ""
    Ipv6Addr := some ""
    Comment := some "PTR record created in forward mapping zone"
    UseTtl := some false
    Ttl := none
    Ea := none }

/-- A state holding the resource `infoblox_ptr_record.foo`. -/
def sampleState : TerraformState :=
  ⟨fun name => if name = "infoblox_ptr_record.foo" then some "record:ptr/foo" else none⟩

/-- A test environment whose lookup returns `fetched` and whose `validateEAs`
always panics. -/
def sampleEnv (fetched : RecordPTR) : TestEnv :=
  ⟨fun e => e.notFound, fun _ _ => Outcome.panic "validateEAs called",
    fun _ => (some fetched, none)⟩

/-- A connector whose every call fails with a transport error. -/
def failingConnector : Connector :=
  ⟨fun _ _ => ⟨none, some ⟨false, "connection refused"⟩⟩⟩

/-- A connector on which no object exists: every call reports not-found. -/
def notFoundConnector : Connector :=
  ⟨fun _ _ => ⟨none, some ⟨true, "not found"⟩⟩⟩

/-- A connector whose lookups return no record and no error. -/
def emptyConnector : Connector :=
  ⟨fun _ _ => ⟨none, none⟩⟩

/-- The sample association with the JSON object `"Tenant ID": 5` as
`ext_attrs`. -/
def numberTenantData : ResourceData :=
  { sampleData with ext_attrs := "\x7b\"Tenant ID\": 5\x7d" }

/-! ## The float64 bound -/

theorem float64Bound_eq : float64Bound = 2 ^ 1024 - 2 ^ 970 := by
  norm_num [float64Bound]

/-! ## Rejection of view changes -/

/-- C1: in `resourceIpAssocUpdate` and `resourceIpAssocDelete`, for either value
of `isIPv6`, a reported change of `network_view` or of `dns_view` makes the
handler return an error, issue no remote call and leave the resource data (the
identifier included) unchanged, whatever the other fields hold. -/
theorem view_change_rejected (k : Consts) (d : ResourceData) (m : Connector) (isIPv6 : Bool)
    (h : d.HasChange "network_view" = true ∨ d.HasChange "dns_view" = true) :
    ((∃ msg, (resourceIpAssocUpdate k d m isIPv6).result = Outcome.error msg) ∧
      (resourceIpAssocUpdate k d m isIPv6).calls = [] ∧
      (resourceIpAssocUpdate k d m isIPv6).d = d) ∧
    ((∃ msg, (resourceIpAssocDelete k d m isIPv6).result = Outcome.error msg) ∧
      (resourceIpAssocDelete k d m isIPv6).calls = [] ∧
      (resourceIpAssocDelete k d m isIPv6).d = d) := by
  by_cases hn : d.HasChange "network_view" = true
  · simp [resourceIpAssocUpdate, resourceIpAssocDelete, hn]
  · have hd : d.HasChange "dns_view" = true := by
      cases h with
      | inl h1 => exact absurd h1 hn
      | inr h2 => exact h2
    simp [resourceIpAssocUpdate, resourceIpAssocDelete, hn, hd]

/-- C1 at a concrete input: the dns view changes while the TTL is invalid and
`ext_attrs` is not JSON. -/
theorem view_change_rejected_witness :
    ((∃ msg, (resourceIpAssocUpdate sampleConsts
        { sampleData with dns_view := "other", ttl := -7, ext_attrs := "\x7b" }
        okConnector true).result = Outcome.error msg) ∧
      (resourceIpAssocUpdate sampleConsts
        { sampleData with dns_view := "other", ttl := -7, ext_attrs := "\x7b" }
        okConnector true).calls = [] ∧
      (resourceIpAssocUpdate sampleConsts
        { sampleData with dns_view := "other", ttl := -7, ext_attrs := "\x7b" }
        okConnector true).d
        = { sampleData with dns_view := "other", ttl := -7, ext_attrs := "\x7b" }) ∧
    ((∃ msg, (resourceIpAssocDelete sampleConsts
        { sampleData with dns_view := "other", ttl := -7, ext_attrs := "\x7b" }
        okConnector true).result = Outcome.error msg) ∧
      (resourceIpAssocDelete sampleConsts
        { sampleData with dns_view := "other", ttl := -7, ext_attrs := "\x7b" }
        okConnector true).calls = [] ∧
      (resourceIpAssocDelete sampleConsts
        { sampleData with dns_view := "other", ttl := -7, ext_attrs := "\x7b" }
        okConnector true).d
        = { sampleData with dns_view := "other", ttl := -7, ext_attrs := "\x7b" }) :=
  view_change_rejected sampleConsts
    { sampleData with dns_view := "other", ttl := -7, ext_attrs := "\x7b" }
    okConnector true (Or.inr (by decide))

/-! ## Shape of a Delete that passes its checks -/

theorem readTtl_valid (k : Consts) (t : Int) (h : 0 ≤ t ∨ t = k.ttlUndef) :
    ∃ useTtl ttl, readTtl k t = Except.ok (useTtl, ttl) := by
  unfold readTtl
  by_cases h0 : t ≥ 0
  · exact ⟨true, uint32 t, by simp [h0]⟩
  · have hu : t = k.ttlUndef := by
      cases h with
      | inl h1 => exact absurd h1 h0
      | inr h2 => exact h2
    exact ⟨false, 0, by rw [if_neg h0, if_neg (not_not.mpr hu)]⟩

/-- The arguments `resourceIpAssocDelete` passes to `UpdateHostRecord`. -/
theorem delete_calls (k : Consts) (d : ResourceData) (m : Connector) (isIPv6 : Bool)
    (hnv : d.HasChange "network_view" = false) (hdv : d.HasChange "dns_view" = false)
    (useTtl : Bool) (ttl : Nat) (httl : readTtl k d.ttl = Except.ok (useTtl, ttl))
    (eas : GoMap) (tenant : String)
    (hdec : readExtAttrs k d.ext_attrs = Except.ok (eas, tenant)) :
    (resourceIpAssocDelete k d m isIPv6).calls =
      [Call.UpdateHostRecord tenant
        (if isIPv6 then
          ⟨d.id, d.enable_dns, d.enable_dhcp, d.fqdn, d.network_view, d.dns_view,
            "", d.cidr, "", d.ip_addr, "", d.duid, useTtl, ttl, d.comment, eas, []⟩
        else
          ⟨d.id, d.enable_dns, d.enable_dhcp, d.fqdn, d.network_view, d.dns_view,
            d.cidr, "", d.ip_addr, "", "00:00:00:00:00:00", "", useTtl, ttl, d.comment, eas, []⟩)] := by
  cases isIPv6 <;>
    simp only [resourceIpAssocDelete, hnv, hdv, httl, hdec, Bool.false_eq_true, if_false,
      if_true] <;>
    split <;> first | rfl | (split <;> rfl)

/-! ## Delete of an IPv4 association -/

/-- C2: for an IPv4 association with no view change, a valid TTL and an
`ext_attrs` block that completes (the text decodes and the tenant id, when
present, is a string), `resourceIpAssocDelete` issues exactly one remote call:
`UpdateHostRecord` on the current identifier, with MAC address
"00:00:00:00:00:00" whatever `mac_addr` holds and IPv4 address `ip_addr`; no
call of the trace is `DeleteHostRecord`. -/
theorem delete_ipv4_zeroes_mac (k : Consts) (d : ResourceData) (m : Connector)
    (hnv : d.HasChange "network_view" = false) (hdv : d.HasChange "dns_view" = false)
    (httl : 0 ≤ d.ttl ∨ d.ttl = k.ttlUndef)
    (eas : GoMap) (tenant : String)
    (hdec : readExtAttrs k d.ext_attrs = Except.ok (eas, tenant)) :
    (∃ args, (resourceIpAssocDelete k d m false).calls = [Call.UpdateHostRecord tenant args] ∧
      args.hostRref = d.id ∧ args.macAddr = "00:00:00:00:00:00" ∧ args.ipv4Addr = d.ip_addr) ∧
    (∀ c ∈ (resourceIpAssocDelete k d m false).calls,
      ∀ t ref, c ≠ Call.DeleteHostRecord t ref) := by
  obtain ⟨useTtl, ttl, ht⟩ := readTtl_valid k d.ttl httl
  have hc := delete_calls k d m false hnv hdv useTtl ttl ht eas tenant hdec
  refine ⟨⟨_, hc, rfl, rfl, rfl⟩, ?_⟩
  intro c hmem t ref hEq
  rw [hc] at hmem
  simp at hmem
  rw [hmem] at hEq
  cases hEq

/-- C2 at a concrete input: a configured MAC address is replaced by the zero
address. -/
theorem delete_ipv4_zeroes_mac_witness :
    (∃ args, (resourceIpAssocDelete sampleConsts sampleData okConnector false).calls
        = [Call.UpdateHostRecord "" args] ∧
      args.hostRref = "record:host/stored" ∧ args.macAddr = "00:00:00:00:00:00" ∧
      args.ipv4Addr = "10.0.0.4") ∧
    (∀ c ∈ (resourceIpAssocDelete sampleConsts sampleData okConnector false).calls,
      ∀ t ref, c ≠ Call.DeleteHostRecord t ref) :=
  delete_ipv4_zeroes_mac sampleConsts sampleData okConnector (by decide) (by decide)
    (Or.inr (by decide)) (some []) "" (by rfl)

/-! ## Delete of an IPv6 association -/

/-- C3, evaluated on the code: the Delete of an IPv6 association whose `duid` is
"00:03:00:01:aa:bb:cc:dd:ee:ff" issues one `UpdateHostRecord` whose DUID
argument is that configured value, not the empty string; only the MAC address
argument is empty. -/
theorem delete_ipv6_passes_duid :
    ∃ args, (resourceIpAssocDelete sampleConsts sampleData okConnector true).calls
        = [Call.UpdateHostRecord "" args] ∧
      args.duid = "00:03:00:01:aa:bb:cc:dd:ee:ff" ∧ args.duid ≠ "" ∧ args.macAddr = "" :=
  ⟨_, delete_calls sampleConsts sampleData okConnector true (by decide) (by decide)
    false 0 (by rfl) (some []) "" (by rfl), rfl, by decide, rfl⟩

/-! ## TTL policy -/

/-- Two error outcomes whose messages start with different characters differ. -/
theorem error_ne_of_head {a b : String} (h : Outcome.error a = Outcome.error b) (ca cb : Char)
    (ha : a.data.head? = some ca) (hb : b.data.head? = some cb) (hne : ca ≠ cb) : False := by
  rw [Outcome.error.inj h, hb] at ha
  exact hne (Option.some.inj ha).symm

theorem readTtl_nonneg (k : Consts) (t : Int) (h : 0 ≤ t) :
    readTtl k t = Except.ok (true, uint32 t) := by
  unfold readTtl
  rw [if_pos h]

theorem readTtl_undef (k : Consts) (hneg : k.ttlUndef < 0) :
    readTtl k k.ttlUndef = Except.ok (false, 0) := by
  unfold readTtl
  rw [if_neg (not_le.mpr hneg), if_neg (not_not.mpr rfl)]

theorem readTtl_invalid (k : Consts) (t : Int) (h : t < 0) (hu : t ≠ k.ttlUndef) :
    readTtl k t = Except.error "TTL value must be 0 or higher" := by
  unfold readTtl
  rw [if_neg (not_le.mpr h), if_pos hu]

/-- Every `UpdateHostRecord` issued by `resourceIpAssocCreateUpdate` carries the
pair computed by the TTL block. -/
theorem createUpdate_update_mem (k : Consts) (d : ResourceData) (m : Connector) (isIPv6 : Bool)
    (u : Bool) (t : Nat) (httl : readTtl k d.ttl = Except.ok (u, t)) (tn : String)
    (a : UpdateArgs)
    (hmem : Call.UpdateHostRecord tn a ∈ (resourceIpAssocCreateUpdate k d m isIPv6).calls) :
    a.useTtl = u ∧ a.ttl = t := by
  revert hmem
  simp only [resourceIpAssocCreateUpdate, httl]
  repeat' split
  all_goals intro hmem
  all_goals simp at hmem
  all_goals (obtain ⟨_, rfl⟩ := hmem; exact ⟨rfl, rfl⟩)

/-- Every `UpdateHostRecord` issued by `resourceIpAssocDelete` carries the pair
computed by the TTL block. -/
theorem delete_update_mem (k : Consts) (d : ResourceData) (m : Connector) (isIPv6 : Bool)
    (u : Bool) (t : Nat) (httl : readTtl k d.ttl = Except.ok (u, t)) (tn : String)
    (a : UpdateArgs)
    (hmem : Call.UpdateHostRecord tn a ∈ (resourceIpAssocDelete k d m isIPv6).calls) :
    a.useTtl = u ∧ a.ttl = t := by
  revert hmem
  simp only [resourceIpAssocDelete, httl]
  repeat' split
  all_goals intro hmem
  all_goals simp at hmem
  all_goals (obtain ⟨_, rfl⟩ := hmem; exact ⟨rfl, rfl⟩)

theorem readExtAttrs_error_ne_ttl (k : Consts) (s : String) (o : Outcome)
    (h : readExtAttrs k s = Except.error o) :
    o ≠ Outcome.error "TTL value must be 0 or higher" := by
  revert h
  simp only [readExtAttrs]
  repeat' split
  all_goals intro h
  all_goals simp at h
  all_goals subst h
  · intro hEq
    exact error_ne_of_head hEq 'c' 'T' rfl rfl (by decide)
  · intro hEq
    cases hEq

/-- When the TTL block succeeds, `resourceIpAssocCreateUpdate` does not end with
the TTL error. -/
theorem createUpdate_no_ttl_error (k : Consts) (d : ResourceData) (m : Connector)
    (isIPv6 : Bool) (u : Bool) (t : Nat) (httl : readTtl k d.ttl = Except.ok (u, t)) :
    (resourceIpAssocCreateUpdate k d m isIPv6).result
      ≠ Outcome.error "TTL value must be 0 or higher" := by
  simp only [resourceIpAssocCreateUpdate, httl]
  split
  · rename_i o ho
    exact readExtAttrs_error_ne_ttl k _ o ho
  · repeat' split
    all_goals intro hEq
    all_goals first
      | cases hEq
      | exact error_ne_of_head hEq 'F' 'T' rfl rfl (by decide)
      | exact error_ne_of_head hEq 'f' 'T' rfl rfl (by decide)
      | exact error_ne_of_head hEq 'H' 'T' rfl rfl (by decide)
      | exact error_ne_of_head hEq 'h' 'T' rfl rfl (by decide)
      | exact error_ne_of_head hEq 'U' 'T' rfl rfl (by decide)

/-- When the TTL block succeeds, `resourceIpAssocDelete` does not end with the
TTL error. -/
theorem delete_no_ttl_error (k : Consts) (d : ResourceData) (m : Connector)
    (isIPv6 : Bool) (u : Bool) (t : Nat) (httl : readTtl k d.ttl = Except.ok (u, t)) :
    (resourceIpAssocDelete k d m isIPv6).result
      ≠ Outcome.error "TTL value must be 0 or higher" := by
  simp only [resourceIpAssocDelete, httl]
  split
  · intro hEq
    exact error_ne_of_head hEq 'c' 'T' rfl rfl (by decide)
  · split
    · intro hEq
      exact error_ne_of_head hEq 'c' 'T' rfl rfl (by decide)
    · split
      · rename_i o ho
        exact readExtAttrs_error_ne_ttl k _ o ho
      · repeat' split
        all_goals intro hEq
        all_goals first
          | cases hEq
          | exact error_ne_of_head hEq 'E' 'T' rfl rfl (by decide)

/-- C4: the TTL policy of `resourceIpAssocCreateUpdate` and
`resourceIpAssocDelete`, for a negative constant `ttlUndef`.  If `ttl >= 0`,
every `UpdateHostRecord` issued carries `use_ttl = true`.  If `ttl = ttlUndef`,
the TTL block yields `use_ttl = false` and TTL 0, every `UpdateHostRecord`
issued carries them, and the handler does not end with the TTL error.  If
`ttl < 0` and `ttl != ttlUndef`, no remote call is issued and the handler
returns "TTL value must be 0 or higher" (in Delete the check of the views comes
first, so there the message is the TTL one when no view has changed). -/
theorem ttl_policy (k : Consts) (d : ResourceData) (m : Connector) (isIPv6 : Bool)
    (hneg : k.ttlUndef < 0) :
    (0 ≤ d.ttl →
      (∀ tn a, Call.UpdateHostRecord tn a ∈ (resourceIpAssocCreateUpdate k d m isIPv6).calls →
        a.useTtl = true) ∧
      (∀ tn a, Call.UpdateHostRecord tn a ∈ (resourceIpAssocDelete k d m isIPv6).calls →
        a.useTtl = true)) ∧
    (d.ttl = k.ttlUndef →
      readTtl k d.ttl = Except.ok (false, 0) ∧
      (∀ tn a, Call.UpdateHostRecord tn a ∈ (resourceIpAssocCreateUpdate k d m isIPv6).calls →
        a.useTtl = false ∧ a.ttl = 0) ∧
      (∀ tn a, Call.UpdateHostRecord tn a ∈ (resourceIpAssocDelete k d m isIPv6).calls →
        a.useTtl = false ∧ a.ttl = 0) ∧
      (resourceIpAssocCreateUpdate k d m isIPv6).result
        ≠ Outcome.error "TTL value must be 0 or higher" ∧
      (resourceIpAssocDelete k d m isIPv6).result
        ≠ Outcome.error "TTL value must be 0 or higher") ∧
    (d.ttl < 0 → d.ttl ≠ k.ttlUndef →
      ((resourceIpAssocCreateUpdate k d m isIPv6).result
          = Outcome.error "TTL value must be 0 or higher" ∧
        (resourceIpAssocCreateUpdate k d m isIPv6).calls = []) ∧
      ((∃ msg, (resourceIpAssocDelete k d m isIPv6).result = Outcome.error msg) ∧
        (resourceIpAssocDelete k d m isIPv6).calls = [] ∧
        (d.HasChange "network_view" = false → d.HasChange "dns_view" = false →
          (resourceIpAssocDelete k d m isIPv6).result
            = Outcome.error "TTL value must be 0 or higher"))) := by
  refine ⟨fun h0 => ?_, fun hu => ?_, fun hlt hne => ?_⟩
  · have ht := readTtl_nonneg k d.ttl h0
    exact ⟨fun tn a hm => (createUpdate_update_mem k d m isIPv6 _ _ ht tn a hm).1,
      fun tn a hm => (delete_update_mem k d m isIPv6 _ _ ht tn a hm).1⟩
  · have ht : readTtl k d.ttl = Except.ok (false, 0) := by
      rw [hu]
      exact readTtl_undef k hneg
    exact ⟨ht, fun tn a hm => createUpdate_update_mem k d m isIPv6 _ _ ht tn a hm,
      fun tn a hm => delete_update_mem k d m isIPv6 _ _ ht tn a hm,
      createUpdate_no_ttl_error k d m isIPv6 _ _ ht,
      delete_no_ttl_error k d m isIPv6 _ _ ht⟩
  · have ht := readTtl_invalid k d.ttl hlt hne
    refine ⟨?_, ?_, ?_, ?_⟩
    · simp [resourceIpAssocCreateUpdate, ht]
    · simp only [resourceIpAssocDelete, ht]
      repeat' split
      all_goals exact ⟨_, rfl⟩
    · simp only [resourceIpAssocDelete, ht]
      repeat' split
      all_goals rfl
    · intro hnv hdv
      simp only [resourceIpAssocDelete, ht, hnv, hdv, Bool.false_eq_true, if_false]

/-- C4 at concrete inputs, with `ttlUndef = -1`: TTL 155 reaches the update with
`use_ttl = true`, TTL -1 reaches it with `use_ttl = false` and TTL 0, and TTL -7
is rejected before any call. -/
theorem ttl_policy_witness :
    ((∀ tn a, Call.UpdateHostRecord tn a ∈
        (resourceIpAssocCreateUpdate sampleConsts { sampleData with ttl := 155 }
          okConnector false).calls → a.useTtl = true) ∧
      (∀ tn a, Call.UpdateHostRecord tn a ∈
        (resourceIpAssocDelete sampleConsts { sampleData with ttl := 155 }
          okConnector false).calls → a.useTtl = true)) ∧
    (∃ a, (resourceIpAssocDelete sampleConsts { sampleData with ttl := 155 }
        okConnector false).calls = [Call.UpdateHostRecord "" a] ∧ a.useTtl = true ∧ a.ttl = 155) ∧
    (∃ a, (resourceIpAssocDelete sampleConsts sampleData okConnector false).calls
        = [Call.UpdateHostRecord "" a] ∧ a.useTtl = false ∧ a.ttl = 0) ∧
    (resourceIpAssocDelete sampleConsts sampleData okConnector false).result
      ≠ Outcome.error "TTL value must be 0 or higher" ∧
    (resourceIpAssocCreateUpdate sampleConsts { sampleData with ttl := -7 }
        okConnector false).result = Outcome.error "TTL value must be 0 or higher" ∧
    (resourceIpAssocCreateUpdate sampleConsts { sampleData with ttl := -7 }
        okConnector false).calls = [] :=
  ⟨(ttl_policy sampleConsts { sampleData with ttl := 155 } okConnector false (by decide)).1
      (by decide),
    ⟨_, rfl, rfl, rfl⟩,
    ⟨_, rfl, rfl, rfl⟩,
    ((ttl_policy sampleConsts sampleData okConnector false (by decide)).2.1 rfl).2.2.2.2,
    ((ttl_policy sampleConsts { sampleData with ttl := -7 } okConnector false
      (by decide)).2.2 (by decide) (by decide)).1⟩

/-! ## The conversion of the TTL to `uint32` -/

theorem uint32_cast (x : Int) : ((uint32 x : Nat) : Int) = x % 4294967296 := by
  unfold uint32
  exact Int.toNat_of_nonneg (Int.emod_nonneg x (by decide))

theorem uint32_small (x : Int) (h0 : 0 ≤ x) (h1 : x < 4294967296) :
    ((uint32 x : Nat) : Int) = x := by
  rw [uint32_cast]
  exact Int.emod_eq_of_lt h0 h1

/-- C5 as stated fails: the TTL 4294967296 (2^32, a value of a 64-bit `int`) is
non-negative, and both `resourceIpAssocDelete` and `resourceIpAssocCreateUpdate`
pass the TTL 0 to `UpdateHostRecord`. -/
theorem ttl_conversion_truncates :
    (0 : Int) ≤ 4294967296 ∧ (4294967296 : Int) < 2 ^ 63 ∧
    (∃ a, (resourceIpAssocDelete sampleConsts { sampleData with ttl := 4294967296 }
        okConnector false).calls = [Call.UpdateHostRecord "" a] ∧
      a.useTtl = true ∧ a.ttl = 0 ∧ (a.ttl : Int) ≠ 4294967296) ∧
    (∃ g a, (resourceIpAssocCreateUpdate sampleConsts { sampleData with ttl := 4294967296 }
        okConnector false).calls = [g, Call.UpdateHostRecord "" a] ∧
      a.useTtl = true ∧ a.ttl = 0 ∧ (a.ttl : Int) ≠ 4294967296) :=
  ⟨by decide, by decide, ⟨_, rfl, rfl, rfl, by decide⟩, ⟨_, _, rfl, rfl, rfl, by decide⟩⟩

/-- C5, amended: for every `ttl >= 0` the TTL that `resourceIpAssocCreateUpdate`
and `resourceIpAssocDelete` pass to `UpdateHostRecord` is `ttl mod 2^32`; it is
equal to `ttl` whenever `ttl < 2^32`. -/
theorem ttl_conversion (k : Consts) (d : ResourceData) (m : Connector) (isIPv6 : Bool)
    (h0 : 0 ≤ d.ttl) :
    (∀ tn a, Call.UpdateHostRecord tn a ∈ (resourceIpAssocCreateUpdate k d m isIPv6).calls →
      (a.ttl : Int) = d.ttl % 4294967296 ∧ (d.ttl < 4294967296 → (a.ttl : Int) = d.ttl)) ∧
    (∀ tn a, Call.UpdateHostRecord tn a ∈ (resourceIpAssocDelete k d m isIPv6).calls →
      (a.ttl : Int) = d.ttl % 4294967296 ∧ (d.ttl < 4294967296 → (a.ttl : Int) = d.ttl)) := by
  have ht := readTtl_nonneg k d.ttl h0
  constructor
  · intro tn a hm
    have h := (createUpdate_update_mem k d m isIPv6 _ _ ht tn a hm).2
    rw [h]
    exact ⟨uint32_cast d.ttl, fun h1 => uint32_small d.ttl h0 h1⟩
  · intro tn a hm
    have h := (delete_update_mem k d m isIPv6 _ _ ht tn a hm).2
    rw [h]
    exact ⟨uint32_cast d.ttl, fun h1 => uint32_small d.ttl h0 h1⟩

/-- C5, amended, at the TTL 155 of the acceptance test: the update issued by
Delete carries the TTL 155. -/
theorem ttl_conversion_witness :
    ((∀ tn a, Call.UpdateHostRecord tn a ∈
        (resourceIpAssocCreateUpdate sampleConsts { sampleData with ttl := 155 }
          okConnector false).calls →
        (a.ttl : Int) = 155 % 4294967296 ∧ ((155 : Int) < 4294967296 → (a.ttl : Int) = 155)) ∧
      (∀ tn a, Call.UpdateHostRecord tn a ∈
        (resourceIpAssocDelete sampleConsts { sampleData with ttl := 155 }
          okConnector false).calls →
        (a.ttl : Int) = 155 % 4294967296 ∧ ((155 : Int) < 4294967296 → (a.ttl : Int) = 155))) ∧
    (∃ a, (resourceIpAssocDelete sampleConsts { sampleData with ttl := 155 }
        okConnector false).calls = [Call.UpdateHostRecord "" a] ∧ a.ttl = 155) :=
  ⟨ttl_conversion sampleConsts { sampleData with ttl := 155 } okConnector false (by decide),
    ⟨_, rfl, rfl⟩⟩

/-! ## Decoding of the extensible attributes -/

theorem readExtAttrs_undecodable (k : Consts) (s e : String) (hne : s ≠ "")
    (herr : (jsonUnmarshal s (some [])).2 = some e) :
    readExtAttrs k s = Except.error (Outcome.error ("cannot process 'ext_attrs' field: " ++ e)) := by
  simp [readExtAttrs, hne, herr]

theorem readExtAttrs_empty (k : Consts) : readExtAttrs k "" = Except.ok (some [], "") := rfl

/-- Every call of the three handlers goes to the object manager of the tenant
read by the `ext_attrs` block. -/
theorem calls_tenant (k : Consts) (d : ResourceData) (m : Connector) (isIPv6 : Bool)
    (eas : GoMap) (tenant : String)
    (hdec : readExtAttrs k d.ext_attrs = Except.ok (eas, tenant)) :
    (∀ c ∈ (resourceIpAssocCreateUpdate k d m isIPv6).calls, c.tenant = tenant) ∧
    (∀ c ∈ (resourceIpAssocDelete k d m isIPv6).calls, c.tenant = tenant) ∧
    (∀ c ∈ (resourceIpAssocRead k d m).calls, c.tenant = tenant) := by
  refine ⟨?_, ?_, ?_⟩
  · simp only [resourceIpAssocCreateUpdate, hdec]
    repeat' split
    all_goals simp [Call.tenant]
  · simp only [resourceIpAssocDelete, hdec]
    repeat' split
    all_goals simp [Call.tenant]
  · simp only [resourceIpAssocRead, hdec]
    repeat' split
    all_goals simp [Call.tenant]

/-- C6: extensible-attribute decoding in `resourceIpAssocCreateUpdate`,
`resourceIpAssocDelete` and `resourceIpAssocRead`.  When `ext_attrs` is not
empty and `json.Unmarshal` rejects it with the error `e`, each handler returns
an error, issues no remote call and leaves the resource data (the identifier
included) unchanged; the message is "cannot process 'ext_attrs' field: "
followed by `e` (in Read always; in Create/Update and Delete once the checks
placed before the decoding, of the views and of the TTL, have passed).  When
`ext_attrs` is the empty string the block does not fail, and every call is
issued with the empty tenant id. -/
theorem ext_attrs_decoding (k : Consts) (d : ResourceData) (m : Connector) (isIPv6 : Bool) :
    (∀ e, d.ext_attrs ≠ "" → (jsonUnmarshal d.ext_attrs (some [])).2 = some e →
      ((resourceIpAssocRead k d m).result
          = Outcome.error ("cannot process 'ext_attrs' field: " ++ e) ∧
        (resourceIpAssocRead k d m).calls = [] ∧ (resourceIpAssocRead k d m).d = d) ∧
      ((∃ msg, (resourceIpAssocCreateUpdate k d m isIPv6).result = Outcome.error msg) ∧
        (resourceIpAssocCreateUpdate k d m isIPv6).calls = [] ∧
        (resourceIpAssocCreateUpdate k d m isIPv6).d = d ∧
        (0 ≤ d.ttl ∨ d.ttl = k.ttlUndef →
          (resourceIpAssocCreateUpdate k d m isIPv6).result
            = Outcome.error ("cannot process 'ext_attrs' field: " ++ e))) ∧
      ((∃ msg, (resourceIpAssocDelete k d m isIPv6).result = Outcome.error msg) ∧
        (resourceIpAssocDelete k d m isIPv6).calls = [] ∧
        (resourceIpAssocDelete k d m isIPv6).d = d ∧
        (d.HasChange "network_view" = false → d.HasChange "dns_view" = false →
          0 ≤ d.ttl ∨ d.ttl = k.ttlUndef →
          (resourceIpAssocDelete k d m isIPv6).result
            = Outcome.error ("cannot process 'ext_attrs' field: " ++ e)))) ∧
    (d.ext_attrs = "" →
      readExtAttrs k d.ext_attrs = Except.ok (some [], "") ∧
      (∀ c ∈ (resourceIpAssocCreateUpdate k d m isIPv6).calls, c.tenant = "") ∧
      (∀ c ∈ (resourceIpAssocDelete k d m isIPv6).calls, c.tenant = "") ∧
      (∀ c ∈ (resourceIpAssocRead k d m).calls, c.tenant = "")) := by
  constructor
  · intro e hne herr
    have hx := readExtAttrs_undecodable k d.ext_attrs e hne herr
    refine ⟨?_, ⟨?_, ?_, ?_, ?_⟩, ⟨?_, ?_, ?_, ?_⟩⟩
    · simp [resourceIpAssocRead, hx]
    · simp only [resourceIpAssocCreateUpdate, hx]
      split <;> exact ⟨_, rfl⟩
    · simp only [resourceIpAssocCreateUpdate, hx]
      split <;> rfl
    · simp only [resourceIpAssocCreateUpdate, hx]
      split <;> rfl
    · intro hv
      obtain ⟨u, t, ht⟩ := readTtl_valid k d.ttl hv
      simp [resourceIpAssocCreateUpdate, hx, ht]
    · simp only [resourceIpAssocDelete, hx]
      repeat' split
      all_goals exact ⟨_, rfl⟩
    · simp only [resourceIpAssocDelete, hx]
      repeat' split
      all_goals rfl
    · simp only [resourceIpAssocDelete, hx]
      repeat' split
      all_goals rfl
    · intro hnv hdv hv
      obtain ⟨u, t, ht⟩ := readTtl_valid k d.ttl hv
      simp [resourceIpAssocDelete, hx, ht, hnv, hdv]
  · intro hempty
    have hx : readExtAttrs k d.ext_attrs = Except.ok (some [], "") := by
      rw [hempty]
      exact readExtAttrs_empty k
    exact ⟨hx, calls_tenant k d m isIPv6 _ _ hx⟩

/-- C6 at concrete inputs: the text of one opening brace is rejected by all three
handlers before any call; the empty text gives the empty tenant id. -/
theorem ext_attrs_decoding_witness :
    (((resourceIpAssocRead sampleConsts undecodableData okConnector).result
          = Outcome.error ("cannot process 'ext_attrs' field: " ++ "unexpected end of JSON input") ∧
        (resourceIpAssocRead sampleConsts undecodableData okConnector).calls = [] ∧
        (resourceIpAssocRead sampleConsts undecodableData okConnector).d = undecodableData) ∧
      ((resourceIpAssocCreateUpdate sampleConsts undecodableData okConnector false).result
          = Outcome.error ("cannot process 'ext_attrs' field: " ++ "unexpected end of JSON input") ∧
        (resourceIpAssocCreateUpdate sampleConsts undecodableData okConnector false).calls = []) ∧
      ((resourceIpAssocDelete sampleConsts undecodableData okConnector false).result
          = Outcome.error ("cannot process 'ext_attrs' field: " ++ "unexpected end of JSON input") ∧
        (resourceIpAssocDelete sampleConsts undecodableData okConnector false).calls = [])) ∧
    (readExtAttrs sampleConsts sampleData.ext_attrs = Except.ok (some [], "") ∧
      (∀ c ∈ (resourceIpAssocCreateUpdate sampleConsts sampleData okConnector false).calls,
        c.tenant = "")) :=
  have h := (ext_attrs_decoding sampleConsts undecodableData okConnector false).1
    "unexpected end of JSON input" (by decide) rfl
  have h2 := (ext_attrs_decoding sampleConsts sampleData okConnector false).2 rfl
  ⟨⟨h.1, ⟨h.2.1.2.2.2 (Or.inr rfl), h.2.1.2.1⟩,
      ⟨h.2.2.2.2.2 rfl rfl (Or.inr rfl), h.2.2.2.1⟩⟩,
    ⟨h2.1, h2.2.1⟩⟩

/-! ## Absent and empty extensible attributes -/

theorem readExtAttrs_emptyObject (k : Consts) :
    readExtAttrs k "\x7b\x7d" = Except.ok (some [], "") := rfl

/-- Every `UpdateHostRecord` issued by `resourceIpAssocCreateUpdate` and by
`resourceIpAssocDelete` carries the map built by the `ext_attrs` block. -/
theorem update_mem_eas (k : Consts) (d : ResourceData) (m : Connector) (isIPv6 : Bool)
    (eas : GoMap) (tenant : String)
    (hdec : readExtAttrs k d.ext_attrs = Except.ok (eas, tenant)) :
    (∀ tn a, Call.UpdateHostRecord tn a ∈ (resourceIpAssocCreateUpdate k d m isIPv6).calls →
      a.eas = eas) ∧
    (∀ tn a, Call.UpdateHostRecord tn a ∈ (resourceIpAssocDelete k d m isIPv6).calls →
      a.eas = eas) := by
  constructor
  · intro tn a
    simp only [resourceIpAssocCreateUpdate, hdec]
    repeat' split
    all_goals intro hmem
    all_goals simp at hmem
    all_goals (obtain ⟨_, rfl⟩ := hmem; rfl)
  · intro tn a
    simp only [resourceIpAssocDelete, hdec]
    repeat' split
    all_goals intro hmem
    all_goals simp at hmem
    all_goals (obtain ⟨_, rfl⟩ := hmem; rfl)

/-- C7 as stated fails: with `ext_attrs` the empty string, the map that Delete
and Create/Update hand to `UpdateHostRecord` is the allocated empty map, not
the nil map, and it is the very map handed over for the empty JSON object. -/
theorem empty_ext_attrs_not_nil :
    (∃ a, (resourceIpAssocDelete sampleConsts sampleData okConnector false).calls
        = [Call.UpdateHostRecord "" a] ∧ a.eas = some [] ∧ a.eas ≠ none) ∧
    (∃ a, (resourceIpAssocDelete sampleConsts emptyObjectData okConnector false).calls
        = [Call.UpdateHostRecord "" a] ∧ a.eas = some []) ∧
    (∃ g a, (resourceIpAssocCreateUpdate sampleConsts sampleData okConnector false).calls
        = [g, Call.UpdateHostRecord "" a] ∧ a.eas = some [] ∧ a.eas ≠ none) ∧
    (∃ g a, (resourceIpAssocCreateUpdate sampleConsts emptyObjectData okConnector false).calls
        = [g, Call.UpdateHostRecord "" a] ∧ a.eas = some []) :=
  ⟨⟨_, rfl, rfl, Option.some_ne_none _⟩, ⟨_, rfl, rfl⟩,
    ⟨_, _, rfl, rfl, Option.some_ne_none _⟩, ⟨_, _, rfl, rfl⟩⟩

/-- C7, amended: for an association whose `ext_attrs` is the empty string, every
`UpdateHostRecord` issued by `resourceIpAssocCreateUpdate` and
`resourceIpAssocDelete` carries the allocated empty map, and the handlers issue
the same calls and end the same way as with `ext_attrs` set to the empty JSON
object. -/
theorem empty_ext_attrs_same_as_empty_object (k : Consts) (d : ResourceData) (m : Connector)
    (isIPv6 : Bool) (hempty : d.ext_attrs = "") :
    (∀ tn a, Call.UpdateHostRecord tn a ∈ (resourceIpAssocCreateUpdate k d m isIPv6).calls →
      a.eas = some []) ∧
    (∀ tn a, Call.UpdateHostRecord tn a ∈ (resourceIpAssocDelete k d m isIPv6).calls →
      a.eas = some []) ∧
    (resourceIpAssocCreateUpdate k { d with ext_attrs := "\x7b\x7d" } m isIPv6).calls
      = (resourceIpAssocCreateUpdate k d m isIPv6).calls ∧
    (resourceIpAssocCreateUpdate k { d with ext_attrs := "\x7b\x7d" } m isIPv6).result
      = (resourceIpAssocCreateUpdate k d m isIPv6).result ∧
    (resourceIpAssocDelete k { d with ext_attrs := "\x7b\x7d" } m isIPv6).calls
      = (resourceIpAssocDelete k d m isIPv6).calls ∧
    (resourceIpAssocDelete k { d with ext_attrs := "\x7b\x7d" } m isIPv6).result
      = (resourceIpAssocDelete k d m isIPv6).result := by
  have hx : readExtAttrs k d.ext_attrs = Except.ok (some [], "") := by
    rw [hempty]
    exact readExtAttrs_empty k
  have hu := update_mem_eas k d m isIPv6 _ _ hx
  refine ⟨hu.1, hu.2, ?_, ?_, ?_, ?_⟩
  · simp only [resourceIpAssocCreateUpdate, hx, readExtAttrs_emptyObject]
    repeat' split
    all_goals rfl
  · simp only [resourceIpAssocCreateUpdate, hx, readExtAttrs_emptyObject]
    repeat' split
    all_goals rfl
  · simp only [resourceIpAssocDelete, ResourceData.HasChange, hx, readExtAttrs_emptyObject]
    repeat' split
    all_goals rfl
  · simp only [resourceIpAssocDelete, ResourceData.HasChange, hx, readExtAttrs_emptyObject]
    repeat' split
    all_goals rfl

/-- C7, amended, at the sample association. -/
theorem empty_ext_attrs_same_as_empty_object_witness :
    (∀ tn a, Call.UpdateHostRecord tn a ∈
      (resourceIpAssocCreateUpdate sampleConsts sampleData okConnector true).calls →
      a.eas = some []) ∧
    (∀ tn a, Call.UpdateHostRecord tn a ∈
      (resourceIpAssocDelete sampleConsts sampleData okConnector true).calls →
      a.eas = some []) ∧
    (resourceIpAssocCreateUpdate sampleConsts { sampleData with ext_attrs := "\x7b\x7d" }
        okConnector true).calls
      = (resourceIpAssocCreateUpdate sampleConsts sampleData okConnector true).calls ∧
    (resourceIpAssocCreateUpdate sampleConsts { sampleData with ext_attrs := "\x7b\x7d" }
        okConnector true).result
      = (resourceIpAssocCreateUpdate sampleConsts sampleData okConnector true).result ∧
    (resourceIpAssocDelete sampleConsts { sampleData with ext_attrs := "\x7b\x7d" }
        okConnector true).calls
      = (resourceIpAssocDelete sampleConsts sampleData okConnector true).calls ∧
    (resourceIpAssocDelete sampleConsts { sampleData with ext_attrs := "\x7b\x7d" }
        okConnector true).result
      = (resourceIpAssocDelete sampleConsts sampleData okConnector true).result :=
  empty_ext_attrs_same_as_empty_object sampleConsts sampleData okConnector true rfl

/-! ## Absent and present extensible attributes in the comparator -/

/-- C8: when the resource is found with an identifier, the lookup returns a
record without error and every field compared before the extensible attributes
matches, `validateRecordPTR` returns an error if exactly one of the expected
and the fetched EA map is nil, returns nil whatever `validateEAs` would do if
both are nil, and otherwise returns the result of
`validateEAs(fetched, expected)`. -/
theorem validateRecordPTR_eas (env : TestEnv) (resourceName : String)
    (expected recPtr : RecordPTR) (s : TerraformState) (id : String)
    (hres : s.Resources resourceName = some id) (hid : id ≠ "")
    (hget : env.GetPTRRecordByRef id = (some recPtr, none))
    (hPtrdName : recPtr.PtrdName = expected.PtrdName)
    (hComment : recPtr.Comment = expected.Comment)
    (hName : recPtr.Name = expected.Name)
    (hUseTtl : recPtr.UseTtl = expected.UseTtl)
    (hTtl : expected.UseTtl = some true → recPtr.Ttl = expected.Ttl)
    (hView : recPtr.View = expected.View)
    (hZone : recPtr.Zone = expected.Zone)
    (hIpv4 : recPtr.Ipv4Addr = expected.Ipv4Addr)
    (hIpv6 : recPtr.Ipv6Addr = expected.Ipv6Addr) :
    (expected.Ea = none → recPtr.Ea ≠ none →
      ∃ msg, validateRecordPTR env resourceName (some expected) s = Outcome.error msg) ∧
    (expected.Ea ≠ none → recPtr.Ea = none →
      ∃ msg, validateRecordPTR env resourceName (some expected) s = Outcome.error msg) ∧
    (expected.Ea = none → recPtr.Ea = none →
      ∀ v, validateRecordPTR { env with validateEAs := v } resourceName (some expected) s
        = Outcome.ok) ∧
    (expected.Ea ≠ none → recPtr.Ea ≠ none →
      validateRecordPTR env resourceName (some expected) s
        = env.validateEAs recPtr.Ea expected.Ea) := by
  have hTtl2 : ¬ (expected.UseTtl = some true ∧ recPtr.Ttl ≠ expected.Ttl) :=
    fun h => h.2 (hTtl h.1)
  refine ⟨?_, ?_, ?_, ?_⟩
  · intro he hr
    obtain ⟨fs, hfs⟩ := Option.ne_none_iff_exists'.mp hr
    simp [validateRecordPTR, hres, hid, hget, hPtrdName, hComment, hName, hUseTtl, hTtl2,
      hView, hZone, hIpv4, hIpv6, he, hfs]
  · intro he hr
    obtain ⟨fs, hfs⟩ := Option.ne_none_iff_exists'.mp he
    simp [validateRecordPTR, hres, hid, hget, hPtrdName, hComment, hName, hUseTtl, hTtl2,
      hView, hZone, hIpv4, hIpv6, hr, hfs]
  · intro he hr v
    simp [validateRecordPTR, hres, hid, hget, hPtrdName, hComment, hName, hUseTtl, hTtl2,
      hView, hZone, hIpv4, hIpv6, he, hr]
  · intro he hr
    obtain ⟨fs, hfs⟩ := Option.ne_none_iff_exists'.mp he
    obtain ⟨gs, hgs⟩ := Option.ne_none_iff_exists'.mp hr
    simp [validateRecordPTR, hres, hid, hget, hPtrdName, hComment, hName, hUseTtl, hTtl2,
      hView, hZone, hIpv4, hIpv6, hfs, hgs]

/-- C8 at concrete inputs: an expected record without extensible attributes is
not matched by a fetched record with an empty, allocated EA map; when neither
has extensible attributes the comparison succeeds although `validateEAs` of the
sample environment panics. -/
theorem validateRecordPTR_eas_witness :
    (∃ msg, validateRecordPTR (sampleEnv { samplePTR with Ea := some [] })
      "infoblox_ptr_record.foo" (some samplePTR) sampleState = Outcome.error msg) ∧
    validateRecordPTR (sampleEnv samplePTR) "infoblox_ptr_record.foo" (some samplePTR)
      sampleState = Outcome.ok :=
  ⟨(validateRecordPTR_eas (sampleEnv { samplePTR with Ea := some [] })
      "infoblox_ptr_record.foo" samplePTR { samplePTR with Ea := some [] } sampleState
      "record:ptr/foo" rfl (by decide) rfl rfl rfl rfl rfl (fun _ => rfl) rfl rfl rfl rfl).1
      rfl (Option.some_ne_none _),
    (validateRecordPTR_eas (sampleEnv samplePTR)
      "infoblox_ptr_record.foo" samplePTR samplePTR sampleState
      "record:ptr/foo" rfl (by decide) rfl rfl rfl rfl rfl (fun _ => rfl) rfl rfl rfl rfl).2.2.1
      rfl rfl (sampleEnv samplePTR).validateEAs⟩

/-! ## Create and Update share one procedure -/

/-- Returning the error of the shared procedure, or nil when there is none,
returns what the shared procedure returned. -/
theorem rewrap_eq (r : Run) :
    (match r.result with
      | Outcome.ok => (⟨Outcome.ok, r.d, r.calls⟩ : Run)
      | err => ⟨err, r.d, r.calls⟩) = r := by
  cases r with
  | mk res d c => cases res <;> rfl

/-- What `resourceIpAssocCreateUpdate` does once its lookup has returned the
record `found`: the two calls it issues, and its end when the update returns a
record. -/
theorem createUpdate_found (k : Consts) (d : ResourceData) (m : Connector) (isIPv6 : Bool)
    (useTtl : Bool) (ttl : Nat) (httl : readTtl k d.ttl = Except.ok (useTtl, ttl))
    (eas : GoMap) (tenant : String)
    (hdec : readExtAttrs k d.ext_attrs = Except.ok (eas, tenant)) (found : HostRecord)
    (herr : (m.respond [] (Call.GetHostRecord tenant d.network_view
      (if d.enable_dns then d.dns_view else "") d.fqdn (if isIPv6 then "" else d.ip_addr)
      (if isIPv6 then d.ip_addr else ""))).err = none)
    (hobj : (m.respond [] (Call.GetHostRecord tenant d.network_view
      (if d.enable_dns then d.dns_view else "") d.fqdn (if isIPv6 then "" else d.ip_addr)
      (if isIPv6 then d.ip_addr else ""))).obj = some found) :
    (resourceIpAssocCreateUpdate k d m isIPv6).calls =
      [Call.GetHostRecord tenant d.network_view (if d.enable_dns then d.dns_view else "")
          d.fqdn (if isIPv6 then "" else d.ip_addr) (if isIPv6 then d.ip_addr else ""),
        Call.UpdateHostRecord tenant
          (if isIPv6 then
            ⟨found.Ref, d.enable_dns, d.enable_dhcp, d.fqdn, d.network_view,
              if d.enable_dns then d.dns_view else "",
              "", d.cidr, "", d.ip_addr, "", d.duid, useTtl, ttl, d.comment, eas, []⟩
          else
            ⟨found.Ref, d.enable_dns, d.enable_dhcp, d.fqdn, d.network_view,
              if d.enable_dns then d.dns_view else "",
              d.cidr, "", d.ip_addr, "", replaceChar d.mac_addr '-' ':', "", useTtl, ttl,
              d.comment, eas, []⟩)] ∧
    (∀ updated,
      (m.respond [Call.GetHostRecord tenant d.network_view
          (if d.enable_dns then d.dns_view else "") d.fqdn (if isIPv6 then "" else d.ip_addr)
          (if isIPv6 then d.ip_addr else "")]
        (Call.UpdateHostRecord tenant
          (if isIPv6 then
            ⟨found.Ref, d.enable_dns, d.enable_dhcp, d.fqdn, d.network_view,
              if d.enable_dns then d.dns_view else "",
              "", d.cidr, "", d.ip_addr, "", d.duid, useTtl, ttl, d.comment, eas, []⟩
          else
            ⟨found.Ref, d.enable_dns, d.enable_dhcp, d.fqdn, d.network_view,
              if d.enable_dns then d.dns_view else "",
              d.cidr, "", d.ip_addr, "", replaceChar d.mac_addr '-' ':', "", useTtl, ttl,
              d.comment, eas, []⟩))).err = none →
      (m.respond [Call.GetHostRecord tenant d.network_view
          (if d.enable_dns then d.dns_view else "") d.fqdn (if isIPv6 then "" else d.ip_addr)
          (if isIPv6 then d.ip_addr else "")]
        (Call.UpdateHostRecord tenant
          (if isIPv6 then
            ⟨found.Ref, d.enable_dns, d.enable_dhcp, d.fqdn, d.network_view,
              if d.enable_dns then d.dns_view else "",
              "", d.cidr, "", d.ip_addr, "", d.duid, useTtl, ttl, d.comment, eas, []⟩
          else
            ⟨found.Ref, d.enable_dns, d.enable_dhcp, d.fqdn, d.network_view,
              if d.enable_dns then d.dns_view else "",
              d.cidr, "", d.ip_addr, "", replaceChar d.mac_addr '-' ':', "", useTtl, ttl,
              d.comment, eas, []⟩))).obj = some updated →
      (resourceIpAssocCreateUpdate k d m isIPv6).result = Outcome.ok ∧
      (resourceIpAssocCreateUpdate k d m isIPv6).d = d.SetId updated.Ref) := by
  cases isIPv6 <;> cases hdns : d.enable_dns <;>
    simp only [resourceIpAssocCreateUpdate, httl, hdec, hdns, Bool.false_eq_true, if_false,
      if_true, Bool.not_false, Bool.not_true] at herr hobj ⊢ <;>
    simp only [herr, hobj] <;>
    constructor <;>
    first
      | (intro updated he ho
         simp [he, ho])
      | (repeat' split
         all_goals rfl)

/-- C9: `resourceIpAssocCreate` is `resourceIpAssocCreateUpdate`, and so is
`resourceIpAssocUpdate` when neither view has changed.  Once the TTL and
`ext_attrs` blocks have passed, the procedure issues one `GetHostRecord` keyed
by network view, dns view, fqdn and IP address; if that lookup returns no
record it stops with an error; if it returns a record, one `UpdateHostRecord`
follows on the reference of that record, and the reference of the record that
update returns becomes the identifier. -/
theorem create_update_shared (k : Consts) (d : ResourceData) (m : Connector) (isIPv6 : Bool) :
    resourceIpAssocCreate k d m isIPv6 = resourceIpAssocCreateUpdate k d m isIPv6 ∧
    (d.HasChange "network_view" = false → d.HasChange "dns_view" = false →
      resourceIpAssocUpdate k d m isIPv6 = resourceIpAssocCreateUpdate k d m isIPv6) ∧
    (∀ useTtl ttl eas tenant get,
      readTtl k d.ttl = Except.ok (useTtl, ttl) →
      readExtAttrs k d.ext_attrs = Except.ok (eas, tenant) →
      get = Call.GetHostRecord tenant d.network_view (if d.enable_dns then d.dns_view else "")
        d.fqdn (if isIPv6 then "" else d.ip_addr) (if isIPv6 then d.ip_addr else "") →
      ((m.respond [] get).err ≠ none ∨ (m.respond [] get).obj = none →
        (resourceIpAssocCreateUpdate k d m isIPv6).calls = [get] ∧
        (∃ msg, (resourceIpAssocCreateUpdate k d m isIPv6).result = Outcome.error msg) ∧
        (resourceIpAssocCreateUpdate k d m isIPv6).d = d) ∧
      (∀ found, (m.respond [] get).err = none → (m.respond [] get).obj = some found →
        ∃ args, (resourceIpAssocCreateUpdate k d m isIPv6).calls
            = [get, Call.UpdateHostRecord tenant args] ∧
          args.hostRref = found.Ref ∧
          (∀ updated, (m.respond [get] (Call.UpdateHostRecord tenant args)).err = none →
            (m.respond [get] (Call.UpdateHostRecord tenant args)).obj = some updated →
            (resourceIpAssocCreateUpdate k d m isIPv6).result = Outcome.ok ∧
            (resourceIpAssocCreateUpdate k d m isIPv6).d = d.SetId updated.Ref))) := by
  refine ⟨?_, ?_, ?_⟩
  · unfold resourceIpAssocCreate
    exact rewrap_eq _
  · intro hnv hdv
    unfold resourceIpAssocUpdate
    simp only [hnv, hdv, Bool.false_eq_true, if_false]
    exact rewrap_eq _
  · intro useTtl ttl eas tenant get httl hdec hget
    subst hget
    constructor
    · intro hno
      cases isIPv6 <;> cases hdns : d.enable_dns <;>
        simp only [resourceIpAssocCreateUpdate, httl, hdec, hdns, Bool.false_eq_true, if_false,
          if_true, Bool.not_false, Bool.not_true] at hno ⊢ <;>
        generalize m.respond [] _ = rep at hno ⊢ <;>
        rcases rep with ⟨obj, err⟩ <;>
        cases err <;> cases obj <;> simp at hno ⊢
    · intro found herr hobj
      have h := createUpdate_found k d m isIPv6 useTtl ttl httl eas tenant hdec found herr hobj
      refine ⟨_, h.1, ?_, h.2⟩
      cases isIPv6 <;> rfl

/-- C9 at the sample association: Create and Update run the shared procedure,
which looks the host record up with an empty dns view (`enable_dns` is false),
updates the record found and stores the reference the update returns. -/
theorem create_update_shared_witness :
    resourceIpAssocCreate sampleConsts sampleData okConnector false
      = resourceIpAssocCreateUpdate sampleConsts sampleData okConnector false ∧
    resourceIpAssocUpdate sampleConsts sampleData okConnector false
      = resourceIpAssocCreateUpdate sampleConsts sampleData okConnector false ∧
    (∃ args, (resourceIpAssocCreateUpdate sampleConsts sampleData okConnector false).calls
        = [Call.GetHostRecord "" "default" "" "host.test.com" "10.0.0.4" "",
            Call.UpdateHostRecord "" args] ∧
      args.hostRref = "record:host/found" ∧
      (resourceIpAssocCreateUpdate sampleConsts sampleData okConnector false).result
        = Outcome.ok ∧
      (resourceIpAssocCreateUpdate sampleConsts sampleData okConnector false).d
        = sampleData.SetId "record:host/updated") :=
  have h := create_update_shared sampleConsts sampleData okConnector false
  ⟨h.1, h.2.1 (by decide) (by decide),
    match (h.2.2 false 0 (some []) "" _ rfl rfl rfl).2 ⟨"record:host/found"⟩ rfl rfl with
    | ⟨args, hc, hr, hu⟩ =>
      ⟨args, hc, hr, (hu ⟨"record:host/updated"⟩ rfl rfl).1,
        (hu ⟨"record:host/updated"⟩ rfl rfl).2⟩⟩

/-! ## Delete does not run the shared procedure -/

/-- The calls of `resourceIpAssocDelete`: none, or one `UpdateHostRecord`. -/
theorem delete_calls_shape (k : Consts) (d : ResourceData) (m : Connector) (isIPv6 : Bool) :
    (resourceIpAssocDelete k d m isIPv6).calls = [] ∨
    ∃ tn a, (resourceIpAssocDelete k d m isIPv6).calls = [Call.UpdateHostRecord tn a] := by
  simp only [resourceIpAssocDelete]
  repeat' split
  all_goals first
    | exact Or.inl rfl
    | exact Or.inr ⟨_, _, rfl⟩

/-- C10 as stated fails: on the sample association, where `enable_dns` is false
and the dns view is "default", Delete issues a single `UpdateHostRecord` on the
stored identifier with dns view "default" and no lookup, whereas the shared
procedure looks the record up with an empty dns view and updates the record
found, again with an empty dns view. -/
theorem delete_not_shared_procedure :
    sampleData.enable_dns = false ∧
    (∃ a, (resourceIpAssocDelete sampleConsts sampleData okConnector false).calls
        = [Call.UpdateHostRecord "" a] ∧
      a.hostRref = "record:host/stored" ∧ a.dnsView = "default") ∧
    (∃ a, (resourceIpAssocCreateUpdate sampleConsts sampleData okConnector false).calls
        = [Call.GetHostRecord "" "default" "" "host.test.com" "10.0.0.4" "",
            Call.UpdateHostRecord "" a] ∧
      a.hostRref = "record:host/found" ∧ a.dnsView = "") :=
  ⟨rfl, ⟨_, rfl, rfl, rfl⟩, ⟨_, rfl, rfl, rfl⟩⟩

/-- C10, amended: `resourceIpAssocDelete` never issues a `GetHostRecord`; when
no view has changed, the TTL is valid and the `ext_attrs` block completes, its
only call is `UpdateHostRecord` on the stored identifier, with the configured
network view and the configured dns view (whatever `enable_dns` is), and for an
IPv4 association with the zero MAC address and the configured IP address. -/
theorem delete_direct_update (k : Consts) (d : ResourceData) (m : Connector) (isIPv6 : Bool) :
    (∀ c ∈ (resourceIpAssocDelete k d m isIPv6).calls,
      ∀ t nv dv n a4 a6, c ≠ Call.GetHostRecord t nv dv n a4 a6) ∧
    (d.HasChange "network_view" = false → d.HasChange "dns_view" = false →
      0 ≤ d.ttl ∨ d.ttl = k.ttlUndef →
      ∀ eas tenant, readExtAttrs k d.ext_attrs = Except.ok (eas, tenant) →
      ∃ a, (resourceIpAssocDelete k d m isIPv6).calls = [Call.UpdateHostRecord tenant a] ∧
        a.hostRref = d.id ∧ a.netView = d.network_view ∧ a.dnsView = d.dns_view ∧
        (isIPv6 = false → a.macAddr = "00:00:00:00:00:00" ∧ a.ipv4Addr = d.ip_addr)) := by
  constructor
  · intro c hmem t nv dv n a4 a6 hEq
    rcases delete_calls_shape k d m isIPv6 with h | ⟨tn, a, h⟩
    · rw [h] at hmem
      cases hmem
    · rw [h] at hmem
      simp at hmem
      rw [hmem] at hEq
      cases hEq
  · intro hnv hdv httl eas tenant hdec
    obtain ⟨useTtl, ttl, ht⟩ := readTtl_valid k d.ttl httl
    have hc := delete_calls k d m isIPv6 hnv hdv useTtl ttl ht eas tenant hdec
    refine ⟨_, hc, ?_, ?_, ?_, ?_⟩
    · cases isIPv6 <;> rfl
    · cases isIPv6 <;> rfl
    · cases isIPv6 <;> rfl
    · intro h6
      subst h6
      exact ⟨rfl, rfl⟩

/-- C10, amended, at the sample association. -/
theorem delete_direct_update_witness :
    (∀ c ∈ (resourceIpAssocDelete sampleConsts sampleData okConnector false).calls,
      ∀ t nv dv n a4 a6, c ≠ Call.GetHostRecord t nv dv n a4 a6) ∧
    (∃ a, (resourceIpAssocDelete sampleConsts sampleData okConnector false).calls
        = [Call.UpdateHostRecord "" a] ∧
      a.hostRref = "record:host/stored" ∧ a.netView = "default" ∧ a.dnsView = "default" ∧
      (false = false → a.macAddr = "00:00:00:00:00:00" ∧ a.ipv4Addr = "10.0.0.4")) :=
  have h := delete_direct_update sampleConsts sampleData okConnector false
  ⟨h.1, h.2 (by decide) (by decide) (Or.inr (by decide)) (some []) "" rfl⟩

/-! ## Atomicity of the handlers -/

theorem readExtAttrs_error_ne_ok (k : Consts) (s : String) (o : Outcome)
    (h : readExtAttrs k s = Except.error o) : o ≠ Outcome.ok := by
  revert h
  simp only [readExtAttrs]
  repeat' split
  all_goals intro h
  all_goals simp at h
  all_goals subst h
  all_goals intro hEq
  all_goals cases hEq



theorem resourceIpAssocCreate_eq (k : Consts) (d : ResourceData) (m : Connector)
    (isIPv6 : Bool) :
    resourceIpAssocCreate k d m isIPv6 = resourceIpAssocCreateUpdate k d m isIPv6 := by
  unfold resourceIpAssocCreate
  exact rewrap_eq _

/-- Update either stops at a view check, or is the shared procedure. -/
theorem resourceIpAssocUpdate_cases (k : Consts) (d : ResourceData) (m : Connector)
    (isIPv6 : Bool) :
    (∃ msg, resourceIpAssocUpdate k d m isIPv6 = ⟨Outcome.error msg, d, []⟩) ∨
    resourceIpAssocUpdate k d m isIPv6 = resourceIpAssocCreateUpdate k d m isIPv6 := by
  unfold resourceIpAssocUpdate
  split
  · exact Or.inl ⟨_, rfl⟩
  · split
    · exact Or.inl ⟨_, rfl⟩
    · exact Or.inr (rewrap_eq _)

/-- The shared procedure writes the resource data only when it succeeds, and
then stores the reference returned by its last call. -/
theorem atomic_createUpdate (k : Consts) (d : ResourceData) (m : Connector) (isIPv6 : Bool) :
    ((resourceIpAssocCreateUpdate k d m isIPv6).result ≠ Outcome.ok →
      (resourceIpAssocCreateUpdate k d m isIPv6).d = d) ∧
    ((resourceIpAssocCreateUpdate k d m isIPv6).result = Outcome.ok →
      ∃ prior last obj, (resourceIpAssocCreateUpdate k d m isIPv6).calls = prior ++ [last] ∧
        (m.respond prior last).err = none ∧ (m.respond prior last).obj = some obj ∧
        (resourceIpAssocCreateUpdate k d m isIPv6).d = d.SetId obj.Ref) := by
  cases hdns : d.enable_dns <;>
    simp only [resourceIpAssocCreateUpdate, hdns, Bool.not_false, Bool.not_true,
      Bool.false_eq_true, if_false, if_true] <;>
    repeat' split
  all_goals refine ⟨fun h => ?_, fun h => ?_⟩
  all_goals first
    | rfl
    | exact absurd rfl h
    | exact Outcome.noConfusion h
    | (refine ⟨[_], _, _, rfl, ?_, ?_, rfl⟩ <;> assumption)
    | exact absurd h (readExtAttrs_error_ne_ok k _ _ (by assumption))

/-- Delete writes the resource data only when it succeeds, and then stores the
reference returned by its call. -/
theorem atomic_delete (k : Consts) (d : ResourceData) (m : Connector) (isIPv6 : Bool) :
    ((resourceIpAssocDelete k d m isIPv6).result ≠ Outcome.ok →
      (resourceIpAssocDelete k d m isIPv6).d = d) ∧
    ((resourceIpAssocDelete k d m isIPv6).result = Outcome.ok →
      ∃ prior last obj, (resourceIpAssocDelete k d m isIPv6).calls = prior ++ [last] ∧
        (m.respond prior last).err = none ∧ (m.respond prior last).obj = some obj ∧
        (resourceIpAssocDelete k d m isIPv6).d = d.SetId obj.Ref) := by
  simp only [resourceIpAssocDelete]
  repeat' split
  all_goals refine ⟨fun h => ?_, fun h => ?_⟩
  all_goals first
    | rfl
    | exact absurd rfl h
    | exact Outcome.noConfusion h
    | (refine ⟨[], _, _, rfl, ?_, ?_, rfl⟩ <;> assumption)
    | exact absurd h (readExtAttrs_error_ne_ok k _ _ (by assumption))

/-- Read writes the resource data only when it succeeds, and then stores the
reference returned by its call. -/
theorem atomic_read (k : Consts) (d : ResourceData) (m : Connector) :
    ((resourceIpAssocRead k d m).result ≠ Outcome.ok → (resourceIpAssocRead k d m).d = d) ∧
    ((resourceIpAssocRead k d m).result = Outcome.ok →
      ∃ prior last obj, (resourceIpAssocRead k d m).calls = prior ++ [last] ∧
        (m.respond prior last).err = none ∧ (m.respond prior last).obj = some obj ∧
        (resourceIpAssocRead k d m).d = d.SetId obj.Ref) := by
  simp only [resourceIpAssocRead]
  repeat' split
  all_goals refine ⟨fun h => ?_, fun h => ?_⟩
  all_goals first
    | rfl
    | exact absurd rfl h
    | exact Outcome.noConfusion h
    | (refine ⟨[], _, _, rfl, ?_, ?_, rfl⟩ <;> assumption)
    | exact absurd h (readExtAttrs_error_ne_ok k _ _ (by assumption))

/-- C11: atomicity of `resourceIpAssocCreate`, `resourceIpAssocUpdate`,
`resourceIpAssocDelete` and `resourceIpAssocRead`.  Whenever the handler returns
an error (more generally, whenever it does not return nil) the resource data,
the identifier included, is what it was before the call; when it returns nil,
the identifier has been set to the reference of the object returned by the last
remote call, and nothing else has been written. -/
theorem handlers_atomic (k : Consts) (d : ResourceData) (m : Connector) (isIPv6 : Bool)
    (r : Run)
    (hr : r = resourceIpAssocCreate k d m isIPv6 ∨ r = resourceIpAssocUpdate k d m isIPv6 ∨
      r = resourceIpAssocDelete k d m isIPv6 ∨ r = resourceIpAssocRead k d m) :
    (∀ msg, r.result = Outcome.error msg → r.d = d) ∧
    (r.result ≠ Outcome.ok → r.d = d) ∧
    (r.result = Outcome.ok →
      ∃ prior last obj, r.calls = prior ++ [last] ∧
        (m.respond prior last).err = none ∧ (m.respond prior last).obj = some obj ∧
        r.d = d.SetId obj.Ref) := by
  have key : (r.result ≠ Outcome.ok → r.d = d) ∧
      (r.result = Outcome.ok →
        ∃ prior last obj, r.calls = prior ++ [last] ∧
          (m.respond prior last).err = none ∧ (m.respond prior last).obj = some obj ∧
          r.d = d.SetId obj.Ref) := by
    rcases hr with h | h | h | h
    · rw [h, resourceIpAssocCreate_eq]
      exact atomic_createUpdate k d m isIPv6
    · rcases resourceIpAssocUpdate_cases k d m isIPv6 with ⟨msg, hu⟩ | hu
      · rw [h, hu]
        exact ⟨fun _ => rfl, fun hok => Outcome.noConfusion hok⟩
      · rw [h, hu]
        exact atomic_createUpdate k d m isIPv6
    · rw [h]
      exact atomic_delete k d m isIPv6
    · rw [h]
      exact atomic_read k d m
  refine ⟨fun msg hm => key.1 ?_, key.1, key.2⟩
  rw [hm]
  intro hEq
  cases hEq

/-- C11 at the sample association: a Delete whose update fails leaves the
resource data as it was; a Delete whose update succeeds stores the reference of
the record that update returned. -/
theorem handlers_atomic_witness :
    (resourceIpAssocDelete sampleConsts sampleData failingConnector false).d = sampleData ∧
    (∃ prior last obj,
      (resourceIpAssocDelete sampleConsts sampleData okConnector false).calls = prior ++ [last] ∧
      (okConnector.respond prior last).err = none ∧
      (okConnector.respond prior last).obj = some obj ∧
      (resourceIpAssocDelete sampleConsts sampleData okConnector false).d
        = sampleData.SetId obj.Ref) :=
  ⟨(handlers_atomic sampleConsts sampleData failingConnector false _
      (Or.inr (Or.inr (Or.inl rfl)))).1 _ rfl,
    (handlers_atomic sampleConsts sampleData okConnector false _
      (Or.inr (Or.inr (Or.inl rfl)))).2.2 rfl⟩

/-! ## Read and a missing object -/

/-- C12 as stated fails: when `GetHostRecordByRef` reports not-found,
`resourceIpAssocRead` returns an error and the identifier stays what it was; it
is not cleared. -/
theorem read_not_found_is_error :
    (notFoundConnector.respond [] (Call.GetHostRecordByRef "" "record:host/stored")).err
      = some ⟨true, "not found"⟩ ∧
    (resourceIpAssocRead sampleConsts sampleData notFoundConnector).result
      = Outcome.error
        "Error getting Allocated HostRecord with ID: record:host/stored failed : not found" ∧
    (resourceIpAssocRead sampleConsts sampleData notFoundConnector).d.id
      = "record:host/stored" ∧
    (resourceIpAssocRead sampleConsts sampleData notFoundConnector).d.id ≠ "" :=
  ⟨rfl, by decide, rfl, by decide⟩

/-- C12, amended: whenever `GetHostRecordByRef` returns an error, the not-found
error or any other, `resourceIpAssocRead` (its `ext_attrs` block completed)
returns the error "Error getting Allocated HostRecord with ID: <id> failed :
<message>" after that single call and leaves the resource data, the identifier
included, unchanged. -/
theorem read_lookup_error (k : Consts) (d : ResourceData) (m : Connector)
    (eas : GoMap) (tenant : String)
    (hdec : readExtAttrs k d.ext_attrs = Except.ok (eas, tenant)) (e : IBError)
    (herr : (m.respond [] (Call.GetHostRecordByRef tenant d.id)).err = some e) :
    (resourceIpAssocRead k d m).result
      = Outcome.error ("Error getting Allocated HostRecord with ID: " ++ d.id ++ " failed : "
        ++ e.msg) ∧
    (resourceIpAssocRead k d m).calls = [Call.GetHostRecordByRef tenant d.id] ∧
    (resourceIpAssocRead k d m).d = d := by
  simp [resourceIpAssocRead, hdec, herr]

/-- C12, amended, at the sample association, for a not-found error and for a
transport error. -/
theorem read_lookup_error_witness :
    ((resourceIpAssocRead sampleConsts sampleData notFoundConnector).result
        = Outcome.error ("Error getting Allocated HostRecord with ID: " ++ "record:host/stored"
          ++ " failed : " ++ "not found") ∧
      (resourceIpAssocRead sampleConsts sampleData notFoundConnector).calls
        = [Call.GetHostRecordByRef "" "record:host/stored"] ∧
      (resourceIpAssocRead sampleConsts sampleData notFoundConnector).d = sampleData) ∧
    ((resourceIpAssocRead sampleConsts sampleData failingConnector).result
        = Outcome.error ("Error getting Allocated HostRecord with ID: " ++ "record:host/stored"
          ++ " failed : " ++ "connection refused") ∧
      (resourceIpAssocRead sampleConsts sampleData failingConnector).calls
        = [Call.GetHostRecordByRef "" "record:host/stored"] ∧
      (resourceIpAssocRead sampleConsts sampleData failingConnector).d = sampleData) :=
  ⟨read_lookup_error sampleConsts sampleData notFoundConnector (some []) "" rfl
      ⟨true, "not found"⟩ rfl,
    read_lookup_error sampleConsts sampleData failingConnector (some []) "" rfl
      ⟨false, "connection refused"⟩ rfl⟩

/-! ## The calls of the shared procedure -/

/-- The calls of `resourceIpAssocCreateUpdate`: none, or the lookup alone, or
the lookup followed by the update of the record found. -/
theorem createUpdate_calls_shape (k : Consts) (d : ResourceData) (m : Connector)
    (isIPv6 : Bool) :
    (resourceIpAssocCreateUpdate k d m isIPv6).calls = [] ∨
    ∃ tenant,
      (resourceIpAssocCreateUpdate k d m isIPv6).calls =
        [Call.GetHostRecord tenant d.network_view (if d.enable_dns then d.dns_view else "")
          d.fqdn (if isIPv6 then "" else d.ip_addr) (if isIPv6 then d.ip_addr else "")] ∨
      ∃ (found : HostRecord) (useTtl : Bool) (ttl : Nat) (eas : GoMap),
        (resourceIpAssocCreateUpdate k d m isIPv6).calls =
          [Call.GetHostRecord tenant d.network_view (if d.enable_dns then d.dns_view else "")
            d.fqdn (if isIPv6 then "" else d.ip_addr) (if isIPv6 then d.ip_addr else ""),
          Call.UpdateHostRecord tenant
            (if isIPv6 then
              ⟨found.Ref, d.enable_dns, d.enable_dhcp, d.fqdn, d.network_view,
                if d.enable_dns then d.dns_view else "",
                "", d.cidr, "", d.ip_addr, "", d.duid, useTtl, ttl, d.comment, eas, []⟩
            else
              ⟨found.Ref, d.enable_dns, d.enable_dhcp, d.fqdn, d.network_view,
                if d.enable_dns then d.dns_view else "",
                d.cidr, "", d.ip_addr, "", replaceChar d.mac_addr '-' ':', "", useTtl, ttl,
                d.comment, eas, []⟩)] := by
  cases isIPv6 <;> cases hdns : d.enable_dns <;>
    simp only [resourceIpAssocCreateUpdate, hdns, Bool.not_false, Bool.not_true,
      Bool.false_eq_true, if_false, if_true] <;>
    repeat' split
  all_goals first
    | exact Or.inl rfl
    | exact Or.inr ⟨_, Or.inl rfl⟩
    | exact Or.inr ⟨_, Or.inr ⟨_, _, _, _, rfl⟩⟩

/-- When the lookup of the shared procedure returns an error or no record, the
procedure stops there with an error. -/
theorem createUpdate_not_found (k : Consts) (d : ResourceData) (m : Connector)
    (isIPv6 : Bool) (useTtl : Bool) (ttl : Nat)
    (httl : readTtl k d.ttl = Except.ok (useTtl, ttl)) (eas : GoMap) (tenant : String)
    (hdec : readExtAttrs k d.ext_attrs = Except.ok (eas, tenant))
    (hno : (m.respond [] (Call.GetHostRecord tenant d.network_view
        (if d.enable_dns then d.dns_view else "") d.fqdn (if isIPv6 then "" else d.ip_addr)
        (if isIPv6 then d.ip_addr else ""))).err ≠ none ∨
      (m.respond [] (Call.GetHostRecord tenant d.network_view
        (if d.enable_dns then d.dns_view else "") d.fqdn (if isIPv6 then "" else d.ip_addr)
        (if isIPv6 then d.ip_addr else ""))).obj = none) :
    (resourceIpAssocCreateUpdate k d m isIPv6).calls =
      [Call.GetHostRecord tenant d.network_view (if d.enable_dns then d.dns_view else "")
        d.fqdn (if isIPv6 then "" else d.ip_addr) (if isIPv6 then d.ip_addr else "")] ∧
    (∃ msg, (resourceIpAssocCreateUpdate k d m isIPv6).result = Outcome.error msg) ∧
    (resourceIpAssocCreateUpdate k d m isIPv6).d = d := by
  cases isIPv6 <;> cases hdns : d.enable_dns <;>
    simp only [resourceIpAssocCreateUpdate, httl, hdec, hdns, Bool.false_eq_true, if_false,
      if_true, Bool.not_false, Bool.not_true] at hno ⊢ <;>
    generalize m.respond [] _ = rep at hno ⊢ <;>
    rcases rep with ⟨obj, err⟩ <;>
    cases err <;> cases obj <;> simp at hno ⊢

/-! ## A lookup that finds nothing -/

/-- C13: in `resourceIpAssocCreateUpdate`, for IPv4 and IPv6 alike, once the TTL
and `ext_attrs` blocks have passed: if `GetHostRecord` returns an error, or a
nil record without error, the handler returns an error and issues no
`UpdateHostRecord`.  Over all inputs, an `UpdateHostRecord` is issued if and
only if both blocks passed and the lookup returned a record and no error. -/
theorem lookup_failure_is_hard (k : Consts) (d : ResourceData) (m : Connector)
    (isIPv6 : Bool) :
    (∀ useTtl ttl eas tenant,
      readTtl k d.ttl = Except.ok (useTtl, ttl) →
      readExtAttrs k d.ext_attrs = Except.ok (eas, tenant) →
      (m.respond [] (Call.GetHostRecord tenant d.network_view
          (if d.enable_dns then d.dns_view else "") d.fqdn (if isIPv6 then "" else d.ip_addr)
          (if isIPv6 then d.ip_addr else ""))).err ≠ none ∨
        (m.respond [] (Call.GetHostRecord tenant d.network_view
          (if d.enable_dns then d.dns_view else "") d.fqdn (if isIPv6 then "" else d.ip_addr)
          (if isIPv6 then d.ip_addr else ""))).obj = none →
      (∃ msg, (resourceIpAssocCreateUpdate k d m isIPv6).result = Outcome.error msg) ∧
      (∀ tn a, Call.UpdateHostRecord tn a ∉ (resourceIpAssocCreateUpdate k d m isIPv6).calls)) ∧
    ((∃ tn a, Call.UpdateHostRecord tn a ∈ (resourceIpAssocCreateUpdate k d m isIPv6).calls) ↔
      ∃ useTtl ttl eas tenant found,
        readTtl k d.ttl = Except.ok (useTtl, ttl) ∧
        readExtAttrs k d.ext_attrs = Except.ok (eas, tenant) ∧
        (m.respond [] (Call.GetHostRecord tenant d.network_view
          (if d.enable_dns then d.dns_view else "") d.fqdn (if isIPv6 then "" else d.ip_addr)
          (if isIPv6 then d.ip_addr else ""))).err = none ∧
        (m.respond [] (Call.GetHostRecord tenant d.network_view
          (if d.enable_dns then d.dns_view else "") d.fqdn (if isIPv6 then "" else d.ip_addr)
          (if isIPv6 then d.ip_addr else ""))).obj = some found) := by
  have part1 : ∀ useTtl ttl eas tenant,
      readTtl k d.ttl = Except.ok (useTtl, ttl) →
      readExtAttrs k d.ext_attrs = Except.ok (eas, tenant) →
      (m.respond [] (Call.GetHostRecord tenant d.network_view
          (if d.enable_dns then d.dns_view else "") d.fqdn (if isIPv6 then "" else d.ip_addr)
          (if isIPv6 then d.ip_addr else ""))).err ≠ none ∨
        (m.respond [] (Call.GetHostRecord tenant d.network_view
          (if d.enable_dns then d.dns_view else "") d.fqdn (if isIPv6 then "" else d.ip_addr)
          (if isIPv6 then d.ip_addr else ""))).obj = none →
      (∃ msg, (resourceIpAssocCreateUpdate k d m isIPv6).result = Outcome.error msg) ∧
      (∀ tn a, Call.UpdateHostRecord tn a ∉
        (resourceIpAssocCreateUpdate k d m isIPv6).calls) := by
    intro useTtl ttl eas tenant httl hdec hno
    have h := createUpdate_not_found k d m isIPv6 useTtl ttl httl eas tenant hdec hno
    refine ⟨h.2.1, ?_⟩
    intro tn a hmem
    rw [h.1] at hmem
    simp at hmem
  refine ⟨part1, ?_, ?_⟩
  · rintro ⟨tn, a, hmem⟩
    cases hT : readTtl k d.ttl with
    | error e =>
      simp [resourceIpAssocCreateUpdate, hT] at hmem
    | ok p =>
      obtain ⟨useTtl, ttl⟩ := p
      cases hE : readExtAttrs k d.ext_attrs with
      | error o =>
        simp [resourceIpAssocCreateUpdate, hT, hE] at hmem
      | ok q =>
        obtain ⟨eas, tenant⟩ := q
        cases herr : (m.respond [] (Call.GetHostRecord tenant d.network_view
          (if d.enable_dns then d.dns_view else "") d.fqdn (if isIPv6 then "" else d.ip_addr)
          (if isIPv6 then d.ip_addr else ""))).err with
        | some e =>
          exact absurd hmem ((part1 useTtl ttl eas tenant hT hE
            (Or.inl (by rw [herr]; exact Option.some_ne_none e))).2 tn a)
        | none =>
          cases hobj : (m.respond [] (Call.GetHostRecord tenant d.network_view
          (if d.enable_dns then d.dns_view else "") d.fqdn (if isIPv6 then "" else d.ip_addr)
          (if isIPv6 then d.ip_addr else ""))).obj with
          | none =>
            exact absurd hmem ((part1 useTtl ttl eas tenant hT hE (Or.inr hobj)).2 tn a)
          | some found =>
            exact ⟨useTtl, ttl, eas, tenant, found, rfl, rfl, herr, hobj⟩
  · rintro ⟨useTtl, ttl, eas, tenant, found, hT, hE, herr, hobj⟩
    have h := (createUpdate_found k d m isIPv6 useTtl ttl hT eas tenant hE found herr hobj).1
    rw [h]
    exact ⟨tenant, _, List.mem_cons_of_mem _ (List.mem_cons_self _ _)⟩

/-- C13 at the sample association: a lookup that returns no record and no
error, and a lookup that fails, both end in an error without any update; a
lookup that finds the record is followed by the update. -/
theorem lookup_failure_is_hard_witness :
    ((∃ msg, (resourceIpAssocCreateUpdate sampleConsts sampleData emptyConnector false).result
        = Outcome.error msg) ∧
      (∀ tn a, Call.UpdateHostRecord tn a ∉
        (resourceIpAssocCreateUpdate sampleConsts sampleData emptyConnector false).calls)) ∧
    ((∃ msg, (resourceIpAssocCreateUpdate sampleConsts sampleData failingConnector true).result
        = Outcome.error msg) ∧
      (∀ tn a, Call.UpdateHostRecord tn a ∉
        (resourceIpAssocCreateUpdate sampleConsts sampleData failingConnector true).calls)) ∧
    (∃ tn a, Call.UpdateHostRecord tn a ∈
      (resourceIpAssocCreateUpdate sampleConsts sampleData okConnector false).calls) :=
  ⟨(lookup_failure_is_hard sampleConsts sampleData emptyConnector false).1
      false 0 (some []) "" rfl rfl (Or.inr rfl),
    (lookup_failure_is_hard sampleConsts sampleData failingConnector true).1
      false 0 (some []) "" rfl rfl (Or.inl (Option.some_ne_none _)),
    (lookup_failure_is_hard sampleConsts sampleData okConnector false).2.mpr
      ⟨false, 0, some [], "", ⟨"record:host/found"⟩, rfl, rfl, rfl, rfl⟩⟩

/-! ## The views passed by the shared procedure -/

/-- C14: every `GetHostRecord` and every `UpdateHostRecord` issued by
`resourceIpAssocCreateUpdate` carries the configured `network_view`, and as dns
view the empty string when `enable_dns` is false and the configured `dns_view`
when `enable_dns` is true. -/
theorem views_passed (k : Consts) (d : ResourceData) (m : Connector) (isIPv6 : Bool) :
    ∀ c ∈ (resourceIpAssocCreateUpdate k d m isIPv6).calls,
      (∀ t nv dv n a4 a6, c = Call.GetHostRecord t nv dv n a4 a6 →
        nv = d.network_view ∧ (d.enable_dns = false → dv = "") ∧
        (d.enable_dns = true → dv = d.dns_view)) ∧
      (∀ t a, c = Call.UpdateHostRecord t a →
        a.netView = d.network_view ∧ (d.enable_dns = false → a.dnsView = "") ∧
        (d.enable_dns = true → a.dnsView = d.dns_view)) := by
  intro c hmem
  rcases createUpdate_calls_shape k d m isIPv6 with h | ⟨tenant, h | ⟨found, u, t, eas, h⟩⟩
  · rw [h] at hmem
    cases hmem
  · rw [h] at hmem
    simp only [List.mem_singleton] at hmem
    subst hmem
    constructor
    · intro t nv dv n a4 a6 hEq
      injection hEq with _ h2 h3
      subst h2 h3
      exact ⟨rfl, fun hf => by simp [hf], fun ht => by simp [ht]⟩
    · intro t a hEq
      cases hEq
  · rw [h] at hmem
    simp only [List.mem_cons, List.mem_singleton, List.not_mem_nil, or_false] at hmem
    rcases hmem with hmem | hmem
    · subst hmem
      constructor
      · intro t nv dv n a4 a6 hEq
        injection hEq with _ h2 h3
        subst h2 h3
        exact ⟨rfl, fun hf => by simp [hf], fun ht => by simp [ht]⟩
      · intro t a hEq
        cases hEq
    · subst hmem
      constructor
      · intro t nv dv n a4 a6 hEq
        cases hEq
      · intro t a hEq
        injection hEq with _ h2
        subst h2
        cases isIPv6 <;>
          exact ⟨rfl, fun hf => by simp [hf], fun ht => by simp [ht]⟩

/-- C14 at the sample association, whose `enable_dns` is false and whose
`dns_view` is "default": the lookup and the update both carry the network view
"default" and an empty dns view. -/
theorem views_passed_witness :
    (resourceIpAssocCreateUpdate sampleConsts sampleData okConnector false).calls
      = [Call.GetHostRecord "" "default" "" "host.test.com" "10.0.0.4" "",
          Call.UpdateHostRecord ""
            ⟨"record:host/found", false, true, "host.test.com", "default", "",
              "10.0.0.0/24", "", "10.0.0.4", "", "aa:bb:cc:dd:ee:ff", "", false, 0, "",
              some [], []⟩] ∧
    (∀ c ∈ (resourceIpAssocCreateUpdate sampleConsts sampleData okConnector false).calls,
      (∀ t nv dv n a4 a6, c = Call.GetHostRecord t nv dv n a4 a6 →
        nv = sampleData.network_view ∧ (sampleData.enable_dns = false → dv = "") ∧
        (sampleData.enable_dns = true → dv = sampleData.dns_view)) ∧
      (∀ t a, c = Call.UpdateHostRecord t a →
        a.netView = sampleData.network_view ∧ (sampleData.enable_dns = false → a.dnsView = "") ∧
        (sampleData.enable_dns = true → a.dnsView = sampleData.dns_view))) :=
  ⟨rfl, views_passed sampleConsts sampleData okConnector false⟩

/-! ## Normalisation of the MAC address -/

theorem replaceChar_data (s : String) :
    (replaceChar s '-' ':').data = s.data.map (fun c => if c = '-' then ':' else c) := rfl

theorem utf8ByteSize_go_map (l : List Char) :
    String.utf8ByteSize.go (l.map (fun c => if c = '-' then ':' else c))
      = String.utf8ByteSize.go l := by
  induction l with
  | nil => rfl
  | cons c cs ih =>
    simp only [List.map, String.utf8ByteSize.go, ih]
    by_cases hc : c = '-'
    · subst hc
      rfl
    · rw [if_neg hc]

/-- C15: in the IPv4 branch of `resourceIpAssocCreateUpdate` the MAC address
handed to `UpdateHostRecord` is `mac_addr` with every '-' replaced by ':'.  For
every string `s` the normalised string has, at each position, ':' where `s` has
'-' and the character of `s` elsewhere; it has the length of `s` (in characters
and in bytes), contains no '-', and normalising it again changes nothing. -/
theorem mac_normalisation (k : Consts) (d : ResourceData) (m : Connector) :
    (∀ tn a, Call.UpdateHostRecord tn a ∈ (resourceIpAssocCreateUpdate k d m false).calls →
      a.macAddr = replaceChar d.mac_addr '-' ':') ∧
    (∀ s : String,
      (∀ i : Nat, (replaceChar s '-' ':').data[i]?
        = (s.data[i]?).map (fun c => if c = '-' then ':' else c)) ∧
      (replaceChar s '-' ':').length = s.length ∧
      (replaceChar s '-' ':').utf8ByteSize = s.utf8ByteSize ∧
      '-' ∉ (replaceChar s '-' ':').data ∧
      (∀ (i : Nat) (c : Char), s.data[i]? = some c → c ≠ '-' → (replaceChar s '-' ':').data[i]? = some c) ∧
      replaceChar (replaceChar s '-' ':') '-' ':' = replaceChar s '-' ':') := by
  constructor
  · intro tn a hmem
    rcases createUpdate_calls_shape k d m false with h | ⟨tenant, h | ⟨found, u, t, eas, h⟩⟩
    · rw [h] at hmem
      cases hmem
    · rw [h] at hmem
      simp at hmem
    · rw [h] at hmem
      simp at hmem
      rw [hmem.2]
  · intro s
    refine ⟨?_, ?_, ?_, ?_, ?_, ?_⟩
    · intro i
      rw [replaceChar_data, List.getElem?_map]
    · show (replaceChar s '-' ':').data.length = s.data.length
      rw [replaceChar_data, List.length_map]
    · show String.utf8ByteSize.go (replaceChar s '-' ':').data = String.utf8ByteSize.go s.data
      rw [replaceChar_data]
      exact utf8ByteSize_go_map s.data
    · rw [replaceChar_data]
      intro hmem
      obtain ⟨c, _, hc⟩ := List.mem_map.mp hmem
      by_cases h : c = '-'
      · rw [if_pos h] at hc
        exact absurd hc (by decide)
      · rw [if_neg h] at hc
        exact h hc
    · intro i c hi hc
      rw [replaceChar_data, List.getElem?_map, hi]
      simp [hc]
    · apply String.ext
      rw [replaceChar_data, replaceChar_data, List.map_map]
      apply List.map_congr_left
      intro c _
      by_cases h : c = '-'
      · simp [h]
      · simp [h]

/-- C15 at the sample association: the MAC address "aa-bb-cc-dd-ee-ff" reaches
the update as "aa:bb:cc:dd:ee:ff". -/
theorem mac_normalisation_witness :
    (∃ g tn a, (resourceIpAssocCreateUpdate sampleConsts sampleData okConnector false).calls
        = [g, Call.UpdateHostRecord tn a] ∧ a.macAddr = "aa:bb:cc:dd:ee:ff") ∧
    (∀ tn a, Call.UpdateHostRecord tn a ∈
        (resourceIpAssocCreateUpdate sampleConsts sampleData okConnector false).calls →
      a.macAddr = replaceChar sampleData.mac_addr '-' ':') ∧
    (replaceChar "aa-bb-cc-dd-ee-ff" '-' ':').length = "aa-bb-cc-dd-ee-ff".length ∧
    '-' ∉ (replaceChar "aa-bb-cc-dd-ee-ff" '-' ':').data :=
  have h := mac_normalisation sampleConsts sampleData okConnector
  ⟨⟨_, _, _, rfl, by decide⟩, h.1, (h.2 "aa-bb-cc-dd-ee-ff").2.1,
    (h.2 "aa-bb-cc-dd-ee-ff").2.2.2.1⟩

/-! ## The error catcher -/

/-- C16: `ErrorCatcher.Run` with `Try`, `Catch` and `Finally` all defined.  `Try`
is called first.  If `Try` panics with `e`, the calls are `Try`, `Catch(e)`
once, `Finally` once, in this order, and `Run` returns normally when `Catch(e)`
and `Finally` themselves return.  If `Try` returns, `Catch` is not called and
`Finally` is called once.  With `Catch` undefined, a panic of `Try` is preceded
by the call of `Finally` and leaves `Run` with the same value (`Finally`
returning without recovering it).  `CheckErrorAndReact(e)` panics, with `e`,
exactly when `e` is not nil. -/
theorem errorCatcher_run (t : Behaviour) (c : String → Behaviour) (f : FinallyFn) :
    (ErrorCatcher.Run ⟨some t, some c, some f⟩).1.head? = some Event.tryCalled ∧
    (∀ e, t = Behaviour.panics e →
      (ErrorCatcher.Run ⟨some t, some c, some f⟩).1
        = [Event.tryCalled, Event.catchCalled e, Event.finallyCalled] ∧
      (c e = Behaviour.returns → f.outcome = Behaviour.returns →
        (ErrorCatcher.Run ⟨some t, some c, some f⟩).2 = Behaviour.returns)) ∧
    (t = Behaviour.returns →
      (ErrorCatcher.Run ⟨some t, some c, some f⟩).1 = [Event.tryCalled, Event.finallyCalled] ∧
      (f.outcome = Behaviour.returns →
        (ErrorCatcher.Run ⟨some t, some c, some f⟩).2 = Behaviour.returns)) ∧
    (∀ e, t = Behaviour.panics e →
      (ErrorCatcher.Run ⟨some t, none, some f⟩).1 = [Event.tryCalled, Event.finallyCalled] ∧
      (f.recovers = false → f.outcome = Behaviour.returns →
        (ErrorCatcher.Run ⟨some t, none, some f⟩).2 = Behaviour.panics e)) ∧
    (∀ e : Option String, (∃ v, CheckErrorAndReact e = Behaviour.panics v) ↔ e ≠ none) ∧
    (∀ v, CheckErrorAndReact (some v) = Behaviour.panics v) := by
  refine ⟨?_, ?_, ?_, ?_, ?_, ?_⟩
  · cases t <;> cases hf : f.outcome <;> simp [ErrorCatcher.Run, hf]
  · intro e ht
    subst ht
    constructor
    · cases hf : f.outcome <;> simp [ErrorCatcher.Run, hf]
    · intro hc hf
      simp [ErrorCatcher.Run, hf, hc]
  · intro ht
    subst ht
    constructor
    · cases hf : f.outcome <;> simp [ErrorCatcher.Run, hf]
    · intro hf
      simp [ErrorCatcher.Run, hf]
  · intro e ht
    subst ht
    constructor
    · cases hf : f.outcome <;> simp [ErrorCatcher.Run, hf]
    · intro hr hf
      simp [ErrorCatcher.Run, hf, hr]
  · intro e
    cases e with
    | none => simp [CheckErrorAndReact]
    | some v => simp [CheckErrorAndReact]
  · intro v
    rfl

/-- C16 at concrete callbacks: `Try` is `CheckErrorAndReact` of the error
"boom", `Catch` and `Finally` return. -/
theorem errorCatcher_run_witness :
    ErrorCatcher.Run ⟨some (CheckErrorAndReact (some "boom")),
        some (fun _ => Behaviour.returns), some ⟨false, Behaviour.returns⟩⟩
      = ([Event.tryCalled, Event.catchCalled "boom", Event.finallyCalled], Behaviour.returns) ∧
    ErrorCatcher.Run ⟨some (CheckErrorAndReact none),
        some (fun _ => Behaviour.returns), some ⟨false, Behaviour.returns⟩⟩
      = ([Event.tryCalled, Event.finallyCalled], Behaviour.returns) ∧
    ErrorCatcher.Run ⟨some (CheckErrorAndReact (some "boom")),
        none, some ⟨false, Behaviour.returns⟩⟩
      = ([Event.tryCalled, Event.finallyCalled], Behaviour.panics "boom") :=
  have h := errorCatcher_run (CheckErrorAndReact (some "boom")) (fun _ => Behaviour.returns)
    ⟨false, Behaviour.returns⟩
  have h0 := errorCatcher_run (CheckErrorAndReact none) (fun _ => Behaviour.returns)
    ⟨false, Behaviour.returns⟩
  ⟨Prod.ext (h.2.1 "boom" rfl).1 ((h.2.1 "boom" rfl).2 rfl rfl),
    Prod.ext (h0.2.2.1 rfl).1 ((h0.2.2.1 rfl).2 rfl),
    Prod.ext (h.2.2.2.1 "boom" rfl).1 ((h.2.2.2.1 "boom" rfl).2 rfl rfl)⟩

/-! ## A tenant id that is not a string -/

/-- C17, evaluated on the code: the `ext_attrs` text `"Tenant ID": 5` in braces
is a JSON object that `json.Unmarshal` accepts, and on it
`resourceIpAssocCreateUpdate`, `resourceIpAssocDelete` and
`resourceIpAssocRead` all panic at the type assertion `tempVal.(string)`,
before any remote call; the same happens in Read for the value `null`. -/
theorem tenant_type_assertion_panics :
    (jsonUnmarshal numberTenantData.ext_attrs (some []))
      = (some [("Tenant ID", JValue.number "5")], none) ∧
    ((resourceIpAssocCreateUpdate sampleConsts numberTenantData okConnector false).result
        = Outcome.panic "interface conversion: interface \x7b\x7d is not string" ∧
      (resourceIpAssocCreateUpdate sampleConsts numberTenantData okConnector false).calls = []) ∧
    ((resourceIpAssocDelete sampleConsts numberTenantData okConnector false).result
        = Outcome.panic "interface conversion: interface \x7b\x7d is not string" ∧
      (resourceIpAssocDelete sampleConsts numberTenantData okConnector false).calls = []) ∧
    ((resourceIpAssocRead sampleConsts numberTenantData okConnector).result
        = Outcome.panic "interface conversion: interface \x7b\x7d is not string" ∧
      (resourceIpAssocRead sampleConsts numberTenantData okConnector).calls = []) ∧
    ((resourceIpAssocRead sampleConsts
        { sampleData with ext_attrs := "\x7b\"Tenant ID\": null\x7d" } okConnector).result
        = Outcome.panic "interface conversion: interface \x7b\x7d is not string") :=
  ⟨rfl, ⟨rfl, rfl⟩, ⟨rfl, rfl⟩, ⟨rfl, rfl⟩, rfl⟩

end Infoblox
